import Mathlib

/-!
Verification of the woostproject provisioning tool (src/woostproject3.py).

This file gives a shallow embedding, in Lean 4, of the parts of the program
that the specification's testable properties talk about:

* the step pipeline of `Installer.InstallCommand.__call__` (lines 2267-2280)
  and `add_task` / `add_preliminary_task` (lines 2282-2316);
* the feature version tracking of `Feature` (`get_installed_version`,
  `disable`, `update`, lines 121-150);
* the port registry `Installer.acquire_port` (lines 589-617);
* the indentation normalizer `Installer.normalize_indent` (lines 564-587);
* a slice of the configuration derivation `InstallCommand.init_config`
  (lines 2324-2713);
* the feature-update pass `update_features` / `get_required_features`
  (lines 2715-2755);
* the template variable expansion `expand_vars` / `_inject_var`
  (lines 2757-2770, regular expression `var_reg_expr` at line 913);
* the chunked base64 bundling of `BundleCommand.__call__` (lines 4047-4055)
  and `UnbundleCommand.extract_bundle_data` (lines 4110-4121).

Python strings are modelled as `String` / `List Char`, integers as `Nat` or
`Int`, files as their contents (`Option String`), raised exceptions as
`Except`, and the mutable object state as explicit state passing.
-/

namespace Woost

/-! ## Step pipeline (`InstallCommand.__call__`, lines 2267-2280)

A task is a method name; invoking it either returns or raises, which we model
by the oracle `fails : String → Bool`.  Each run function returns the ordered
trace of tasks that were invoked (a failing task is invoked, then raises) and
whether an exception escaped the loop. -/

/-- One `for task in list: getattr(self, task)()` loop: run the tasks in list
order, stopping at (and including) the first task that raises. -/
def runTasks (fails : String → Bool) : List String → List String × Bool
  | [] => ([], false)
  | t :: rest =>
    if fails t then ([t], true)
    else
      let r := runTasks fails rest
      (t :: r.1, r.2)

/-- The main-phase loop (lines 2273-2275): like `runTasks` but a task whose
name is in `skipped_tasks` is not invoked at all. -/
def runMainTasks (fails : String → Bool) (skipped : List String) :
    List String → List String × Bool
  | [] => ([], false)
  | t :: rest =>
    if t ∈ skipped then runMainTasks fails skipped rest
    else if fails t then ([t], true)
    else
      let r := runMainTasks fails skipped rest
      (t :: r.1, r.2)

/-- `InstallCommand.__call__` (lines 2267-2280): run `preliminary_tasks`, then
the main `tasks` (honouring `skipped_tasks`) unless the preliminary phase
raised, and in a `finally` block run `cleanup_tasks` -- but only when this
process is not the forked child of `_hg` (`_is_child_process`, set at line
2895).  Returns the full invocation trace and whether an exception escaped
`__call__`. -/
def pipeline_call (fails : String → Bool) (skipped preliminary_tasks tasks
    cleanup_tasks : List String) (is_child_process : Bool) :
    List String × Bool :=
  let p := runTasks fails preliminary_tasks
  let m := if p.2 then ([], false) else runMainTasks fails skipped tasks
  let c := if is_child_process then ([], false)
           else runTasks fails cleanup_tasks
  (p.1 ++ m.1 ++ c.1, (p.2 || m.2) || c.2)

/-! ## Feature version tracking (`Feature`, lines 121-150)

The persisted state of one feature is its version marker file, modelled by
`Option String` (`none` = file absent). -/

/-- Python `int(string)` on the canonical decimal representations this tool
writes to its marker files (an optional leading minus sign and digits);
anything else is a `ValueError`, modelled as `none`. -/
def pyParseDigits : List Char → Option Nat
  | [] => none
  | ds =>
    if ds.all Char.isDigit then
      some (ds.foldl (fun acc c => acc * 10 + (c.toNat - 48)) 0)
    else none

/-- Python `int(string)` over `pyParseDigits`, with a leading minus sign. -/
def pyParseInt (s : String) : Option Int :=
  match s.data with
  | '-' :: ds => (pyParseDigits ds).map (fun n => -(n : Int))
  | ds => (pyParseDigits ds).map (fun n => (n : Int))

/-- `Feature.get_installed_version` (lines 121-126): read the marker file and
parse it as an integer; an absent file (`IOError`) or unparsable contents
(`ValueError`) yield 0. -/
def get_installed_version : Option String → Int
  | none => 0
  | some contents => (pyParseInt contents).getD 0

/-- `Feature.disable` (lines 128-129): unconditionally write the sentinel
`-1` to the marker file. -/
def feature_disable (_marker : Option String) : Option String :=
  some "-1"

/-- `Feature.update` (lines 138-150): if the installed version is not the
disabled sentinel `-1` and is below the feature's schema `version`, install
and persist the new version.  Returns the new marker file state, whether
`install()` was invoked, and the `(installed_version, new_version)` pair that
the Python method returns. -/
def feature_update (version : Int) (marker : Option String) :
    Option String × Bool × Int × Option Int :=
  let installed_version := get_installed_version marker
  if installed_version ≠ -1 ∧ installed_version < version then
    (some (toString version), true, installed_version, some version)
  else
    (marker, false, installed_version, none)

/-! ## Port registry (`Installer.acquire_port`, lines 589-617)

The ports file is a list of `(key, port)` lines in file order.  The loop
scans the lines, remembering the last port seen in `file_port`, and returns
the stored port at the first line whose key matches; otherwise it appends a
new line with the explicit `port` argument or `file_port + 1` (the last
line's port plus one, or `first_automatic_port + 1` for an empty or missing
file). -/

/-- `Installer.acquire_port`: returns the acquired port and the new registry
contents. -/
def acquire_port (first_automatic_port : Nat)
    (registry : List (String × Nat)) (key : String) (port : Option Nat) :
    Nat × List (String × Nat) :=
  match registry.find? (fun entry => entry.1 == key) with
  | some entry => (entry.2, registry)
  | none =>
    let file_port := (registry.map Prod.snd).getLastD first_automatic_port
    let new_port := port.getD (file_port + 1)
    (new_port, registry ++ [(key, new_port)])

/-! ## Task insertion (`InstallCommand.add_task`, lines 2282-2298)

`add_task` and `add_preliminary_task` (lines 2300-2316) are textually
identical except for the list they mutate, so a single function taking the
list as an argument covers both.  The three `ValueError`s the Python code can
raise (the two explicit `raise` statements and the `list.index` failure) are
distinguished by an error type. -/

inductive TaskError where
  | mustSpecifyPosition (task : String)
  | cantSpecifyBoth
  | notInList (anchor : String)
  deriving DecidableEq

/-- Python truthiness of a string-or-None attribute: `None` and the empty
string are falsy. -/
def pyTruthy : Option String → Bool
  | none => false
  | some s => !s.isEmpty

/-- Python `list.insert(i, x)` (index clamped to the list length, as in
Python for non-negative `i`). -/
def list_insert (i : Nat) (x : String) (l : List String) : List String :=
  l.take i ++ x :: l.drop i

/-- Python `list.index(x)`: the first index holding `x`, or `none` for the
`ValueError` raised when `x` is not in the list. -/
def list_index (x : String) : List String → Option Nat
  | [] => none
  | a :: l => if a == x then some 0 else (list_index x l).map (· + 1)

/-- `InstallCommand.add_task` (lines 2282-2298), acting on an explicit task
list instead of the mutable `self.tasks`.  On error the caller's list is
unmodified (the exception is raised before any `insert`). -/
def add_task (tasks : List String) (task : String)
    (after before : Option String) : Except TaskError (List String) :=
  if !pyTruthy after && !pyTruthy before then
    .error (.mustSpecifyPosition task)
  else if pyTruthy after && pyTruthy before then
    .error .cantSpecifyBoth
  else if pyTruthy after then
    match list_index (after.getD "") tasks with
    | none => .error (.notInList (after.getD ""))
    | some pos => .ok (list_insert (pos + 1) task tasks)
  else
    match list_index (before.getD "") tasks with
    | none => .error (.notInList (before.getD ""))
    | some pos => .ok (list_insert pos task tasks)

/-! ## Indentation normalization (`Installer.normalize_indent`, lines 564-587)

Lines are worked on as `List Char`; the string is split on the newline
character exactly as Python's `str.split("\n")` does. -/

/-- Python whitespace, as stripped by `str.strip` / `str.rstrip` /
`str.lstrip` (ASCII subset). -/
def pyIsSpace (c : Char) : Bool :=
  c = ' ' || c = '\t' || c = '\n' || c = '\r' || c = '\x0b' || c = '\x0c'

/-- Python `str.lstrip()` on a list of characters. -/
def lstripChars (l : List Char) : List Char :=
  l.dropWhile pyIsSpace

/-- Python `str.rstrip()` on a list of characters. -/
def rstripChars (l : List Char) : List Char :=
  (l.reverse.dropWhile pyIsSpace).reverse

/-- The leading-whitespace run of a line; `normalize_indent` stores it as
`indent = line[:len(line) - len(norm_line)]` (line 581). -/
def leadingWS (l : List Char) : List Char :=
  l.takeWhile pyIsSpace

/-- Python `str.split(sep)` for a one-character separator: splitting never
drops empty fields, and the empty input yields one empty field. -/
def splitOnChar (sep : Char) : List Char → List (List Char)
  | [] => [[]]
  | c :: rest =>
    if c = sep then [] :: splitOnChar sep rest
    else
      match splitOnChar sep rest with
      | [] => [[c]]
      | l :: ls => (c :: l) :: ls

/-- Python `"\n".join` on lines of characters. -/
def joinLines (ls : List (List Char)) : List Char :=
  List.intercalate ['\n'] ls

/-- The loop body of `normalize_indent` (lines 568-586): `indent` is the
stored indentation prefix (`None` until a processed line has leading
whitespace), `found_content` records whether a non-blank line was seen. -/
def normalizeLoop : List (List Char) → Option (List Char) → Bool →
    List (List Char)
  | [], _, _ => []
  | line :: rest, indent, found_content =>
    -- Drop empty lines before the first line with content (lines 571-575):
    -- `line.strip()` is falsy exactly when every character is whitespace.
    if !found_content && line.all pyIsSpace then
      normalizeLoop rest indent found_content
    else
      let l := rstripChars line
      match indent with
      | none =>
        let norm_line := lstripChars l
        if norm_line ≠ l then
          norm_line :: normalizeLoop rest (some (leadingWS l)) true
        else
          norm_line :: normalizeLoop rest none true
      | some ind =>
        if ind.isPrefixOf l then
          l.drop ind.length :: normalizeLoop rest (some ind) true
        else
          l :: normalizeLoop rest (some ind) true

/-- `Installer.normalize_indent` (lines 564-587). -/
def normalize_indent (s : String) : String :=
  String.mk (joinLines (normalizeLoop (splitOnChar '\n' s.data) none false))

/-! ## Configuration derivation (`InstallCommand.init_config`, lines 2324-2713)

`init_config` is a flat ordered sequence of mostly-conditional assignments to
the ~150-field configuration namespace.  We embed the self-contained slice of
that sequence that needs no external input (no environment variables, port
files, or package queries): the assignments of lines 2350-2355 (alias and the
flat names), 2381-2389 (package and the namespace package lists), 2391-2395
(vhost names), 2520 (the unconditional `empty_project_folders.append`), 2523
(`zeo_service_name`), 2645-2646 (`terminal_profile`), 2686-2690 (the
unconditional re-filter that turns `launcher_tabs` from
`(key, cmd, condition)` triples into `(key, cmd)` pairs) and 2692-2698
(`launcher_terminal_tab_parameters`), each in source order with its original
guard.  Unset fields are `none`; guards `if not self.x` are Python
truthiness.  Because the re-filter and the join unpack tuples of a fixed
arity, they raise `ValueError` when an item has the wrong shape, so
`init_config` returns `Except`. -/

/-- Python `str.lower()` (ASCII). -/
def pyLower (s : String) : String :=
  String.mk (s.data.map Char.toLower)

/-- Python `str.replace(".", "_")`: a one-character pattern, so a character
map. -/
def replaceDots (s : String) : String :=
  String.mk (s.data.map (fun c => if c = '.' then '_' else c))

/-- Python `str.split(".")`. -/
def splitDots (s : String) : List String :=
  (splitOnChar '.' s.data).map String.mk

/-- The condition lambdas appearing in the class-level `launcher_tabs`
default (lines 1349-1433), one constructor per distinct lambda. -/
inductive TabCondition where
  | zodbSchemeZeo
  | notModWsgiScheme
  | cacheOnNotModWsgi
  | alwaysTrue
  deriving DecidableEq

/-- An item of `launcher_tabs`: a `(key, cmd, condition)` triple before
`init_config` runs, a `(key, cmd)` pair after the re-filter of lines
2686-2690. -/
inductive PyTab where
  | triple (key cmd : String) (condition : TabCondition)
  | pair (key cmd : String)
  deriving DecidableEq

/-- The modelled slice of the configuration namespace.  `website` is the
mandatory command-line parameter; the `Option` fields start out `none`
(= Python `None`) unless supplied by the caller; `empty_project_folders` and
`launcher_tabs` default to the class-level lists of lines 929-936 and
1349-1433; `deployment_scheme` (line 814), `zodb_deployment_scheme` (line
818), `cache_enabled` (line 1308) and `terminal_profile` (line 1343) carry
the inputs the launcher-tab conditions and the `terminal_profile` guard
read. -/
@[ext] structure InstallConfig where
  website : String
  «alias» : Option String
  package : Option String
  flat_website_name : Option String
  flat_website_alias : Option String
  namespace_packages : List String
  namespace_package_list : List String
  vhost_name : Option String
  vhost_macro_name : Option String
  empty_project_folders : List (List String)
  zeo_service_name : Option String
  deployment_scheme : Option String
  zodb_deployment_scheme : Option String
  cache_enabled : Bool
  terminal_profile : Option String
  launcher_tabs : List PyTab
  launcher_terminal_tab_parameters : Option String
  deriving DecidableEq

/-- The condition lambdas of lines 1359, 1370-1373, 1384-1390, 1400, 1410,
1420, 1431, evaluated against the current namespace.  Python compares
`None == "zeo"` as false and `None not in (...)` as true. -/
def evalTabCondition (c : InstallConfig) : TabCondition → Bool
  | .zodbSchemeZeo => c.zodb_deployment_scheme == some "zeo"
  | .notModWsgiScheme =>
    !(c.deployment_scheme == some "mod_wsgi"
      || c.deployment_scheme == some "mod_wsgi_express")
  | .cacheOnNotModWsgi =>
    c.cache_enabled
      && !(c.deployment_scheme == some "mod_wsgi"
        || c.deployment_scheme == some "mod_wsgi_express")
  | .alwaysTrue => true

/-- Line 2350: `if not self.alias: self.alias = self.website`. -/
def step_alias (c : InstallConfig) : InstallConfig :=
  if !pyTruthy c.«alias» then { c with «alias» := some c.website } else c

/-- Lines 2353-2354 (unconditional):
`self.flat_website_name = self.website.lower().replace(".", "_")` and
`self.flat_website_alias = self.alias.lower().replace(".", "_")`. -/
def step_flat_names (c : InstallConfig) : InstallConfig :=
  { c with
    flat_website_name := some (replaceDots (pyLower c.website)),
    flat_website_alias := some (replaceDots (pyLower (c.«alias».getD ""))) }

/-- Line 2381: `if not self.package: self.package = self.website.lower()`. -/
def step_package (c : InstallConfig) : InstallConfig :=
  if !pyTruthy c.package then { c with package := some (pyLower c.website) }
  else c

/-- Lines 2384-2389 (unconditional): split the package path, drop the last
component, and build the list of joined ancestor packages. -/
def step_namespace_packages (c : InstallConfig) : InstallConfig :=
  let ns_packages := (splitDots (c.package.getD "")).dropLast
  { c with
    namespace_packages := ns_packages,
    namespace_package_list := (List.range ns_packages.length).map
      (fun i => String.intercalate "." (ns_packages.take (i + 1))) }

/-- Line 2391: `if not self.vhost_name: self.vhost_name = self.flat_website_alias`. -/
def step_vhost_name (c : InstallConfig) : InstallConfig :=
  if !pyTruthy c.vhost_name then { c with vhost_name := c.flat_website_alias }
  else c

/-- Line 2394: `if not self.vhost_macro_name: ... = self.vhost_name + "_vhost"`. -/
def step_vhost_macro_name (c : InstallConfig) : InstallConfig :=
  if !pyTruthy c.vhost_macro_name then
    { c with vhost_macro_name := some ((c.vhost_name.getD "") ++ "_vhost") }
  else c

/-- Line 2520 (unconditional):
`self.empty_project_folders.append(["static", "resources"])`. -/
def step_empty_project_folders (c : InstallConfig) : InstallConfig :=
  { c with
    empty_project_folders := c.empty_project_folders ++ [["static", "resources"]] }

/-- Line 2523 (unconditional): `self.zeo_service_name = self.alias + "-zeo"`. -/
def step_zeo_service_name (c : InstallConfig) : InstallConfig :=
  { c with zeo_service_name := some ((c.«alias».getD "") ++ "-zeo") }

/-- Line 2645: `if not self.terminal_profile: self.terminal_profile = self.alias`. -/
def step_terminal_profile (c : InstallConfig) : InstallConfig :=
  if !pyTruthy c.terminal_profile then { c with terminal_profile := c.«alias» }
  else c

/-- The guarded and unconditional field assignments of the slice, composed
in source order (lines 2350-2646). -/
def init_config_fields (c : InstallConfig) : InstallConfig :=
  step_terminal_profile (step_zeo_service_name (step_empty_project_folders
    (step_vhost_macro_name (step_vhost_name (step_namespace_packages
      (step_package (step_flat_names (step_alias c))))))))

/-- The list comprehension of lines 2686-2690:
`[(key, cmd) for key, cmd, condition in self.launcher_tabs if condition(self)]`.
Unpacking a `(key, cmd)` pair into three names raises `ValueError`, which is
what happens on any list the re-filter itself produced. -/
def filter_launcher_tabs (c : InstallConfig) :
    List PyTab → Except String (List PyTab)
  | [] => .ok []
  | .triple key cmd condition :: rest =>
    (filter_launcher_tabs c rest).map
      (fun tabs =>
        if evalTabCondition c condition then .pair key cmd :: tabs else tabs)
  | .pair _ _ :: _ =>
    .error "ValueError: not enough values to unpack (expected 3, got 2)"

/-- The generator of lines 2693-2698: one
`--tab --profile <profile> --command="$LAUNCHER/tab-<key>"` item per
`(key, cmd)` pair; unpacking a triple into two names raises `ValueError`. -/
def launcher_tab_commands (profile : String) :
    List PyTab → Except String (List String)
  | [] => .ok []
  | .pair key _ :: rest =>
    (launcher_tab_commands profile rest).map
      (fun items =>
        ("--tab --profile " ++ profile ++ " --command=\"$LAUNCHER/tab-"
          ++ key ++ "\"") :: items)
  | .triple _ _ _ :: _ =>
    .error "ValueError: too many values to unpack (expected 2)"

/-- The embedded slice of `InstallCommand.init_config`: the field
assignments, then the `launcher_tabs` re-filter (lines 2686-2690), then the
`launcher_terminal_tab_parameters` join (lines 2692-2698). -/
def init_config (c : InstallConfig) : Except String InstallConfig :=
  let c := init_config_fields c
  match filter_launcher_tabs c c.launcher_tabs with
  | .error e => .error e
  | .ok tabs =>
    let c := { c with launcher_tabs := tabs }
    match launcher_tab_commands (c.terminal_profile.getD "") c.launcher_tabs
    with
    | .error e => .error e
    | .ok items =>
      .ok { c with launcher_terminal_tab_parameters := some (String.intercalate "\\\n\t" items) }

/-- The class-level `launcher_tabs` default (lines 1349-1433), with the
command strings verbatim. -/
def default_launcher_tabs : List PyTab :=
  [.triple "zeo"
    "\n                #!/bin/bash\n                export TAB_TITLE=ZEO\n                export TAB_COMMAND=\x27./rundb.sh\x27\n                cd --SETUP-PROJECT_SCRIPTS_DIR--\n                bash --init-file --SETUP-LAUNCHER_TAB_SCRIPT--\n                "
    .zodbSchemeZeo,
   .triple "http"
    "\n                #!/bin/bash\n                export TAB_TITLE=HTTP\n                export TAB_COMMAND=\x27python run.py\x27\n                cd --SETUP-PROJECT_SCRIPTS_DIR--\n                bash --init-file --SETUP-LAUNCHER_TAB_SCRIPT--\n                "
    .notModWsgiScheme,
   .triple "cache"
    "\n                #!/bin/bash\n                export TAB_TITLE=Cache server\n                export TAB_COMMAND=\x27python cacheserver.py\x27\n                cd --SETUP-PROJECT_SCRIPTS_DIR--\n                bash --init-file --SETUP-LAUNCHER_TAB_SCRIPT--\n                "
    .cacheOnNotModWsgi,
   .triple "cocktail"
    "\n                #!/bin/bash\n                export TAB_TITLE=Cocktail\n                cd --SETUP-COCKTAIL_DIR--\n                bash --init-file --SETUP-LAUNCHER_TAB_SCRIPT--\n                "
    .alwaysTrue,
   .triple "woost"
    "\n                #!/bin/bash\n                export TAB_TITLE=Woost\n                cd --SETUP-WOOST_DIR--\n                bash --init-file --SETUP-LAUNCHER_TAB_SCRIPT--\n                "
    .alwaysTrue,
   .triple "site"
    "\n                #!/bin/bash\n                export TAB_TITLE=Site\n                cd --SETUP-PROJECT_DIR--\n                bash --init-file --SETUP-LAUNCHER_TAB_SCRIPT--\n                "
    .alwaysTrue,
   .triple "ipython"
    "\n                #!/bin/bash\n                export TAB_TITLE=IPython\n                export TAB_COMMAND=\x27site-shell\x27\n                cd --SETUP-PROJECT_SCRIPTS_DIR--\n                bash --init-file --SETUP-LAUNCHER_TAB_SCRIPT--\n                "
    .alwaysTrue]

/-- A configuration as built by `process_parameters` before derivation: only
the mandatory `website` is set, and the class-level defaults stand:
`empty_project_folders` from lines 929-936, `launcher_tabs` from lines
1349-1433, `deployment_scheme = None` (line 814),
`zodb_deployment_scheme = None` (line 818), `cache_enabled = False`
(line 1308), `terminal_profile = None` (line 1343). -/
def exampleConfig : InstallConfig :=
  { website := "Test", «alias» := none, package := none,
    flat_website_name := none, flat_website_alias := none,
    namespace_packages := [], namespace_package_list := [],
    vhost_name := none, vhost_macro_name := none,
    empty_project_folders :=
      [["data"], ["static", "images"], ["image-cache"],
       ["views", "resources"], ["upload"], ["sessions"]],
    zeo_service_name := none,
    deployment_scheme := none, zodb_deployment_scheme := none,
    cache_enabled := false, terminal_profile := none,
    launcher_tabs := default_launcher_tabs,
    launcher_terminal_tab_parameters := none }

/-- A minimal pre-derivation configuration with no launcher tabs, used to
exercise the derivation theorems at a concrete input. -/
def exampleSeedConfig : InstallConfig :=
  { website := "t", «alias» := none, package := none,
    flat_website_name := none, flat_website_alias := none,
    namespace_packages := [], namespace_package_list := [],
    vhost_name := none, vhost_macro_name := none,
    empty_project_folders := [], zeo_service_name := none,
    deployment_scheme := none, zodb_deployment_scheme := none,
    cache_enabled := false, terminal_profile := none,
    launcher_tabs := [], launcher_terminal_tab_parameters := none }

/-- The namespace `init_config` derives from `exampleSeedConfig`. -/
def exampleDerivedConfig : InstallConfig :=
  { website := "t", «alias» := some "t", package := some "t",
    flat_website_name := some "t", flat_website_alias := some "t",
    namespace_packages := [], namespace_package_list := [],
    vhost_name := some "t", vhost_macro_name := some "t_vhost",
    empty_project_folders := [["static", "resources"]],
    zeo_service_name := some "t-zeo",
    deployment_scheme := none, zodb_deployment_scheme := none,
    cache_enabled := false, terminal_profile := some "t",
    launcher_tabs := [], launcher_terminal_tab_parameters := some "" }

/-! ## Feature updates (`update_features`, lines 2715-2728)

`update_features` first updates every feature flagged `installed_by_default`,
collecting the updated `Feature` *objects* in the set `updated_features`, and
then walks the required feature *ids* (strings), updating each id that is
`not in updated_features`.  Python's `in` compares a `str` against `Feature`
instances there, which is never equal; we model that heterogeneous set
membership with `PyObj`.  The functions return the ordered trace of the
`feature.update()` invocations (by feature id). -/

/-- Decidable equality for `Except`, used to evaluate the embedded functions
at concrete inputs. -/
instance {α β : Type} [DecidableEq α] [DecidableEq β] :
    DecidableEq (Except α β) := fun a b =>
  match a, b with
  | .ok x, .ok y =>
    match decEq x y with
    | isTrue h => isTrue (by rw [h])
    | isFalse h => isFalse (fun hh => h (by cases hh; rfl))
  | .error x, .error y =>
    match decEq x y with
    | isTrue h => isTrue (by rw [h])
    | isFalse h => isFalse (fun hh => h (by cases hh; rfl))
  | .ok _, .error _ => isFalse (fun hh => by cases hh)
  | .error _, .ok _ => isFalse (fun hh => by cases hh)

structure FeatureObj where
  id : String
  installed_by_default : Bool
  deriving DecidableEq

/-- A value held in (or tested against) the Python set `updated_features`:
either a feature id string or a `Feature` instance.  Python equality between
a `str` and a `Feature` is `False`, which the derived equality mirrors
(distinct constructors never compare equal). -/
inductive PyObj where
  | pyStr (s : String)
  | pyFeat (f : FeatureObj)
  deriving DecidableEq

/-- The first loop of `update_features` (lines 2719-2722): update every
default-installed feature; returns the invocation trace and the contents of
`updated_features` after the loop. -/
def default_features_loop : List FeatureObj → List String × List PyObj
  | [] => ([], [])
  | f :: rest =>
    let r := default_features_loop rest
    if f.installed_by_default then (f.id :: r.1, PyObj.pyFeat f :: r.2)
    else r

/-- The second loop of `update_features` (lines 2724-2728): for each required
feature id not in `updated_features`, look the feature up in the installer's
registry (a `KeyError`, modelled as `.error`, if absent), update it, and add
the object to the set. -/
def required_features_loop (features : List FeatureObj)
    (updated : List PyObj) : List String → Except String (List String)
  | [] => .ok []
  | feature_id :: rest =>
    if PyObj.pyStr feature_id ∈ updated then
      required_features_loop features updated rest
    else
      match features.find? (fun f => f.id == feature_id) with
      | none => .error feature_id
      | some f =>
        (required_features_loop features (updated ++ [PyObj.pyFeat f]) rest).map
          (fun trace => feature_id :: trace)

/-- `InstallCommand.update_features` (lines 2715-2728): the ordered trace of
`feature.update()` invocations. -/
def update_features (features : List FeatureObj) (required : List String) :
    Except String (List String) :=
  let d := default_features_loop features
  (required_features_loop features d.2 required).map (fun trace => d.1 ++ trace)

/-- `InstallCommand.get_required_features` (lines 2730-2755): the feature ids
yielded by the generator, in yield order, as a function of the options it
reads. -/
def get_required_features (deployment_scheme : String) (lets_encrypt : Bool)
    (tasks : List String) (launcher : String) (launcher_supported : Bool) :
    List String :=
  ["core3"]
  ++ (if deployment_scheme ≠ "cherrypy" then
        ["apache"]
        ++ (if deployment_scheme = "mod_wsgi" then ["modwsgi"]
            else if deployment_scheme = "mod_wsgi_express" then
              ["modwsgiexpress"]
            else [])
      else [])
  ++ (if lets_encrypt then ["letsencrypt"] else [])
  ++ (if "install_libs" ∈ tasks ∨ "create_mercurial_repository" ∈ tasks then
        ["mercurial"]
      else [])
  ++ (if launcher = "yes" ∨ (launcher = "auto" ∧ launcher_supported) then
        ["launcher"]
      else [])

/-- The feature registry built by `Installer.__init__` (lines 338-351), with
each feature's `installed_by_default` flag: only `Core3Feature` (line 155)
and `PDFRendererFeature` (line 179) set it; the class default is `False`
(line 30). -/
def installer_features : List FeatureObj :=
  [⟨"core3", true⟩, ⟨"pdfrenderer", true⟩, ⟨"apache", false⟩,
   ⟨"modwsgi", false⟩, ⟨"modwsgiexpress", false⟩, ⟨"letsencrypt", false⟩,
   ⟨"mercurial", false⟩, ⟨"launcher", false⟩]

/-! ## Template variable expansion (lines 913, 2757-2770)

`expand_vars` substitutes every match of the regular expression
`var_reg_expr = --SETUP-(?P<key>[A-Z0-9_]+)--` (line 913) by
`str(getattr(self, key.lower()))`; `_inject_var` turns a missing attribute
(`AttributeError`) into `KeyError("Undefined variable: %s" % match.group(0))`
(lines 2765-2770).  An attribute that exists with value `None` does not
raise: `str(None)` is the text `None`.

The scan below is exactly `re.sub`: at each position, the marker `--SETUP-`
followed by a non-empty maximal run of key characters followed by `--` is a
match (the character class excludes `-`, so no shorter run can be followed by
`--`, and the maximal run is the only candidate); otherwise the scan advances
one character. -/

/-- A Python attribute value, as far as the templates use them. -/
inductive PyValue where
  | vNone
  | vStr (s : String)
  | vInt (n : Int)
  deriving DecidableEq

/-- Python `str(value)`. -/
def pyStrOf : PyValue → String
  | .vNone => "None"
  | .vStr s => s
  | .vInt n => toString n

/-- Python `getattr(self, key)` over the namespace's data fields, `none` when
the attribute does not exist (`AttributeError`). -/
def pygetattr (ns : List (String × PyValue)) (key : String) : Option PyValue :=
  (ns.find? (fun entry => entry.1 == key)).map (fun entry => entry.2)

/-- The character class `[A-Z0-9_]` of `var_reg_expr`. -/
def isVarKeyChar (c : Char) : Bool :=
  ('A' ≤ c && c ≤ 'Z') || ('0' ≤ c && c ≤ '9') || c = '_'

/-- The literal marker `--SETUP-` of `var_reg_expr`. -/
def markerChars : List Char :=
  ['-', '-', 'S', 'E', 'T', 'U', 'P', '-']

/-- The `re.sub(var_reg_expr, self._inject_var, string)` scan of
`expand_vars` (line 2758) with the error behaviour of `_inject_var`
(lines 2765-2770).  The recursion is bounded by an explicit step counter so
that the function evaluates by kernel reduction; every scan step consumes at
least one character (a match consumes the whole token, a mismatch advances
one position), so `cs.length` steps always suffice and the exhausted-counter
arm is unreachable from `expandVarsAux`. -/
def expandVarsFuel (ns : List (String × PyValue)) :
    Nat → List Char → Except String (List Char)
  | _, [] => .ok []
  | 0, _ :: _ => .ok []
  | fuel + 1, c :: rest =>
    if markerChars.isPrefixOf (c :: rest) then
      let after_marker := (c :: rest).drop markerChars.length
      let key_run := after_marker.takeWhile isVarKeyChar
      let after_key := after_marker.drop key_run.length
      if !key_run.isEmpty && ['-', '-'].isPrefixOf after_key then
        match pygetattr ns (String.mk (key_run.map Char.toLower)) with
        | some v =>
          (expandVarsFuel ns fuel (after_key.drop 2)).map
            (fun t => (pyStrOf v).data ++ t)
        | none =>
          .error ("Undefined variable: --SETUP-" ++ String.mk key_run ++ "--")
      else
        (expandVarsFuel ns fuel rest).map (fun t => c :: t)
    else
      (expandVarsFuel ns fuel rest).map (fun t => c :: t)

/-- The scan at its sufficient step count. -/
def expandVarsAux (ns : List (String × PyValue)) (cs : List Char) :
    Except String (List Char) :=
  expandVarsFuel ns cs.length cs

/-- `InstallCommand.expand_vars` (lines 2757-2758). -/
def expand_vars (ns : List (String × PyValue)) (s : String) :
    Except String String :=
  (expandVarsAux ns s.data).map String.mk

/-- Whether a `var_reg_expr` match begins at the head of the text: the
marker, then a non-empty key-character run, then the closing dashes --
exactly the condition the scan tests at each position. -/
def tokenAtHead (cs : List Char) : Bool :=
  markerChars.isPrefixOf cs &&
    (let after_marker := cs.drop markerChars.length
     let key_run := after_marker.takeWhile isVarKeyChar
     !key_run.isEmpty
       && ['-', '-'].isPrefixOf (after_marker.drop key_run.length))

/-! ## Chunked base64 bundling (lines 3953, 4047-4055, 4093, 4110-4121)

`BundleCommand.__call__` reads the tar stream in chunks of
`chunk_size = 8190` bytes, base64-encodes each chunk and concatenates the
encodings; `UnbundleCommand.extract_bundle_data` slices the embedded text
into chunks of `chunk_size = 10920` characters and concatenates the decoded
bytes.  The base64 functions below are the standard RFC 4648 encoding used by
Python's `base64.b64encode` / `b64decode`; bytes are `Nat` values below
256.  `b64decode` is modelled on well-formed input (a length that is a
multiple of four, as every slice taken here has; Python raises on other
lengths). -/

/-- The base64 alphabet. -/
def b64Alphabet : List Char :=
  "ABCDEFGHIJKLMNOPQRSTUVWXYZabcdefghijklmnopqrstuvwxyz0123456789+/".data

/-- The character for a 6-bit value. -/
def b64Char (n : Nat) : Char :=
  b64Alphabet.getD n 'A'

/-- The 6-bit value of an alphabet character. -/
def b64CharVal (c : Char) : Nat :=
  (b64Alphabet.findIdx? (fun x => x == c)).getD 0

/-- `base64.b64encode` on a byte list: three bytes become four characters,
a final one- or two-byte group is padded with `=`. -/
def b64encode : List Nat → List Char
  | a :: b :: c :: rest =>
    b64Char (a / 4) :: b64Char (a % 4 * 16 + b / 16) ::
      b64Char (b % 16 * 4 + c / 64) :: b64Char (c % 64) :: b64encode rest
  | [a, b] =>
    [b64Char (a / 4), b64Char (a % 4 * 16 + b / 16), b64Char (b % 16 * 4), '=']
  | [a] =>
    [b64Char (a / 4), b64Char (a % 4 * 16), '=', '=']
  | [] => []

/-- `base64.b64decode` on four-character groups; a group ending in padding is
the final group and yields one or two bytes. -/
def b64decode : List Char → List Nat
  | c1 :: c2 :: c3 :: c4 :: rest =>
    let v1 := b64CharVal c1
    let v2 := b64CharVal c2
    let v3 := b64CharVal c3
    let v4 := b64CharVal c4
    if c3 = '=' then [v1 * 4 + v2 / 16]
    else if c4 = '=' then [v1 * 4 + v2 / 16, v2 % 16 * 16 + v3 / 4]
    else (v1 * 4 + v2 / 16) :: (v2 % 16 * 16 + v3 / 4) ::
      (v3 % 4 * 64 + v4) :: b64decode rest
  | _ => []

/-- The encoding loop of `BundleCommand.__call__` (lines 4049-4055): encode
`chunk_size`-byte chunks and concatenate.  (With `chunk_size = 0` Python's
`f.read(0)` returns the empty string and the loop writes nothing.) -/
def chunkedEncode (chunk_size : Nat) (data : List Nat) : List Char :=
  if chunk_size = 0 ∨ data = [] then []
  else
    b64encode (data.take chunk_size)
      ++ chunkedEncode chunk_size (data.drop chunk_size)
termination_by data.length
decreasing_by
  simp only [List.length_drop]
  cases data with
  | nil => simp_all
  | cons a l => simp only [List.length_cons]; omega

/-- The decoding loop of `UnbundleCommand.extract_bundle_data` (lines
4114-4121): decode `chunk_size`-character slices of the embedded data and
concatenate. -/
def chunkedDecode (chunk_size : Nat) (s : List Char) : List Nat :=
  if chunk_size = 0 ∨ s = [] then []
  else
    b64decode (s.take chunk_size) ++ chunkedDecode chunk_size (s.drop chunk_size)
termination_by s.length
decreasing_by
  simp only [List.length_drop]
  cases s with
  | nil => simp_all
  | cons a l => simp only [List.length_cons]; omega

/-- `BundleCommand.chunk_size` (line 3953). -/
def bundle_chunk_size : Nat := 8190

/-- `UnbundleCommand.chunk_size` (line 4093). -/
def unbundle_chunk_size : Nat := 10920

/-! ## Pipeline lemmas and claim C1 -/

/-- A task loop over tasks that all succeed runs every task in order and
raises nothing. -/
theorem runTasks_all_ok (fails : String → Bool) :
    ∀ l : List String, (∀ t ∈ l, fails t = false) → runTasks fails l = (l, false)
  | [], _ => rfl
  | t :: rest, h => by
    have ht : fails t = false := h t (by simp)
    have ih := runTasks_all_ok fails rest (fun x hx => h x (by simp [hx]))
    simp [runTasks, ht, ih]

/-- The main loop with no skipped tasks, on a list whose first failing task
is `b`: everything before `b` runs, `b` runs and raises, nothing after `b`
runs. -/
theorem runMainTasks_first_fail (fails : String → Bool) (b : String)
    (hb : fails b = true) :
    ∀ (pre post : List String), (∀ t ∈ pre, fails t = false) →
      runMainTasks fails [] (pre ++ b :: post) = (pre ++ [b], true)
  | [], _, _ => by simp [runMainTasks, hb]
  | t :: pre, post, h => by
    have ht : fails t = false := h t (by simp)
    have ih := runMainTasks_first_fail fails b hb pre post
      (fun x hx => h x (by simp [hx]))
    simp [runMainTasks, ht, ih]

/-- C1 (pipeline fail-fast with cleanup): for every main-task list split as
`pre ++ b :: post` where `b` is the first task that raises, a
non-child-process run of `InstallCommand.__call__` with nothing skipped
invokes every preliminary task in list order, every main task up to and
including `b`, none of the main tasks after `b`, and then every cleanup task
exactly once in list order, and the exception escapes. -/
theorem C1_pipeline_fail_fast_cleanup (fails : String → Bool)
    (preliminary pre post cleanup : List String) (b : String)
    (hprelim : ∀ t ∈ preliminary, fails t = false)
    (hb : fails b = true)
    (hpre : ∀ t ∈ pre, fails t = false)
    (hcleanup : ∀ t ∈ cleanup, fails t = false) :
    pipeline_call fails [] preliminary (pre ++ b :: post) cleanup false =
      (preliminary ++ pre ++ b :: cleanup, true) := by
  simp [pipeline_call, runTasks_all_ok fails preliminary hprelim,
    runMainTasks_first_fail fails b hb pre post hpre,
    runTasks_all_ok fails cleanup hcleanup]

/-- Witness for C1: main tasks `[A, B, C]` where `B` raises. -/
theorem C1_witness :
    pipeline_call (fun t => t == "B") [] ["prep"] ["A", "B", "C"]
        ["clean1", "clean2"] false =
      (["prep", "A", "B", "clean1", "clean2"], true) := by
  have h := C1_pipeline_fail_fast_cleanup (fun t => t == "B") ["prep"] ["A"]
    ["C"] ["clean1", "clean2"] "B" (by decide) (by decide) (by decide)
    (by decide)
  simpa using h

/-! ## Claim C4: feature disable precedence -/

/-- C4 (feature disable precedence): after `Feature.disable()` wrote the
`-1` marker, every subsequent `Feature.update()` -- whatever the feature's
schema version -- installs nothing, leaves the marker file unchanged at
`-1`, and returns `(-1, None)`. -/
theorem C4_feature_disable_precedence (marker : Option String)
    (version : Int) :
    feature_update version (feature_disable marker) =
      (feature_disable marker, false, -1, none) := by
  have h : get_installed_version (feature_disable marker) = -1 := by
    show get_installed_version (some "-1") = -1
    decide
  simp [feature_update, h]

/-! ## Port registry lemmas and claim C5 -/

/-- Auxiliary: `find?` over an append whose first part has no match. -/
theorem find?_append_of_none {α : Type} {p : α → Bool} :
    ∀ {l₁ : List α} (l₂ : List α), l₁.find? p = none →
      (l₁ ++ l₂).find? p = l₂.find? p
  | [], _, _ => rfl
  | e :: l₁, l₂, h => by
    by_cases hp : p e
    · simp [List.find?_cons_of_pos _ hp] at h
    · rw [List.cons_append, List.find?_cons_of_neg _ hp]
      rw [List.find?_cons_of_neg _ hp] at h
      exact find?_append_of_none l₂ h

/-- C5 (port stability), as far as it holds.  First part: acquiring the same
key twice against the same registry returns the same port both times.
Second part (amended): a fresh key (no explicit port) is assigned the last
stored port plus one, which differs from every previously assigned port
provided no stored port exceeds the last stored one -- the invariant
maintained by automatic (no explicit `port` argument) assignment. -/
theorem C5_port_stability :
    (∀ (fa : Nat) (reg : List (String × Nat)) (key : String),
      (acquire_port fa (acquire_port fa reg key none).2 key none).1 =
        (acquire_port fa reg key none).1)
    ∧ (∀ (fa : Nat) (reg : List (String × Nat)) (key : String),
      (∀ e ∈ reg, e.1 ≠ key) →
      (∀ p ∈ reg.map Prod.snd, p ≤ (reg.map Prod.snd).getLastD fa) →
      (acquire_port fa reg key none).1 ∉ reg.map Prod.snd) := by
  constructor
  · intro fa reg key
    cases hfind : reg.find? (fun entry => entry.1 == key) with
    | some e => simp [acquire_port, hfind]
    | none =>
      have h2 : (reg ++ [(key, (reg.map Prod.snd).getLastD fa + 1)]).find?
          (fun entry => entry.1 == key) =
            some (key, (reg.map Prod.snd).getLastD fa + 1) := by
        rw [find?_append_of_none _ hfind]
        simp [List.find?]
      simp [acquire_port, hfind, h2]
  · intro fa reg key hkey hle
    have hfind : reg.find? (fun entry => entry.1 == key) = none := by
      rw [List.find?_eq_none]
      intro e he
      simpa using hkey e he
    simp only [acquire_port, hfind, Option.getD_none]
    intro hmem
    have := hle _ hmem
    omega

/-- Witness for C5: a stored key keeps its port; a fresh key against a
well-ordered registry gets a brand-new port. -/
theorem C5_witness :
    ((acquire_port 14000 (acquire_port 14000 [] "k" none).2 "k" none).1 =
      (acquire_port 14000 [] "k" none).1)
    ∧ (acquire_port 14000 [("a", 14001)] "c" none).1 ∉ [14001] := by
  constructor
  · exact C5_port_stability.1 14000 [] "k"
  · have h := C5_port_stability.2 14000 [("a", 14001)] "c" (by decide)
      (by decide)
    simpa using h

/-- Counterexample for C5 as stated: in a registry reachable through two
explicit-port acquisitions (`acquire_port("a", 6)` then
`acquire_port("b", 5)`), acquiring the fresh key `"c"` with no explicit port
returns `6 = 5 + 1`, a port already assigned to `"a"`. -/
theorem C5_counterexample :
    (acquire_port 14000 [] "a" (some 6)).2 = [("a", 6)]
    ∧ (acquire_port 14000 [("a", 6)] "b" (some 5)).2 = [("a", 6), ("b", 5)]
    ∧ (∀ e ∈ [("a", 6), ("b", 5)], Prod.fst e ≠ "c")
    ∧ (acquire_port 14000 [("a", 6), ("b", 5)] "c" none).1 = 6
    ∧ 6 ∈ [("a", 6), ("b", 5)].map Prod.snd := by decide

/-! ## Task insertion lemmas and claim C7 -/

/-- Auxiliary: `list.index` on an absent element raises. -/
theorem list_index_eq_none_of_not_mem :
    ∀ (l : List String) (x : String), x ∉ l → list_index x l = none
  | [], _, _ => rfl
  | a :: l, x, h => by
    have hax : (a == x) = false := by
      have : a ≠ x := fun hh => h (by simp [hh])
      simpa using this
    have ih := list_index_eq_none_of_not_mem l x (fun hh => h (by simp [hh]))
    simp [list_index, hax, ih]

/-- C7 (`add_task` argument discipline): giving neither `after` nor `before`
(both `None`-or-empty) raises the configuration `ValueError`; giving both
raises the ambiguity `ValueError`; with `after=x` present at first index `i`
the task is inserted immediately after `x`; with `before=x` immediately
before `x`; an anchor absent from the list raises the `list.index` lookup
`ValueError` and no insertion happens (the unchanged list stays with the
caller). -/
theorem C7_add_task_argument_checks :
    (∀ (tasks : List String) (task : String) (after before : Option String),
      pyTruthy after = false → pyTruthy before = false →
      add_task tasks task after before = .error (.mustSpecifyPosition task))
    ∧ (∀ (tasks : List String) (task : String) (after before : Option String),
      pyTruthy after = true → pyTruthy before = true →
      add_task tasks task after before = .error .cantSpecifyBoth)
    ∧ (∀ (tasks : List String) (task x : String) (i : Nat),
      pyTruthy (some x) = true → list_index x tasks = some i →
      add_task tasks task (some x) none =
        .ok (tasks.take (i + 1) ++ task :: tasks.drop (i + 1)))
    ∧ (∀ (tasks : List String) (task x : String),
      pyTruthy (some x) = true → x ∉ tasks →
      add_task tasks task (some x) none = .error (.notInList x))
    ∧ (∀ (tasks : List String) (task x : String) (i : Nat),
      pyTruthy (some x) = true → list_index x tasks = some i →
      add_task tasks task none (some x) =
        .ok (tasks.take i ++ task :: tasks.drop i))
    ∧ (∀ (tasks : List String) (task x : String),
      pyTruthy (some x) = true → x ∉ tasks →
      add_task tasks task none (some x) = .error (.notInList x)) := by
  refine ⟨?_, ?_, ?_, ?_, ?_, ?_⟩
  · intro tasks task after before ha hb
    simp [add_task, ha, hb]
  · intro tasks task after before ha hb
    simp [add_task, ha, hb]
  · intro tasks task x i hx hidx
    have hx2 : x.isEmpty = false := by simpa [pyTruthy] using hx
    simp [add_task, pyTruthy, hx2, hidx, list_insert]
  · intro tasks task x hx hmem
    have hx2 : x.isEmpty = false := by simpa [pyTruthy] using hx
    simp [add_task, pyTruthy, hx2,
      list_index_eq_none_of_not_mem tasks x hmem]
  · intro tasks task x i hx hidx
    have hx2 : x.isEmpty = false := by simpa [pyTruthy] using hx
    simp [add_task, pyTruthy, hx2, hidx, list_insert]
  · intro tasks task x hx hmem
    have hx2 : x.isEmpty = false := by simpa [pyTruthy] using hx
    simp [add_task, pyTruthy, hx2,
      list_index_eq_none_of_not_mem tasks x hmem]

/-- Witness for C7: all six behaviours at concrete inputs. -/
theorem C7_witness :
    add_task ["a"] "t" none none = .error (.mustSpecifyPosition "t")
    ∧ add_task ["a"] "t" (some "a") (some "a") = .error .cantSpecifyBoth
    ∧ add_task ["a", "c"] "t" (some "a") none = .ok ["a", "t", "c"]
    ∧ add_task ["a"] "t" (some "zz") none = .error (.notInList "zz")
    ∧ add_task ["a", "c"] "t" none (some "c") = .ok ["a", "t", "c"]
    ∧ add_task ["a"] "t" none (some "zz") = .error (.notInList "zz") := by
  refine ⟨?_, ?_, ?_, ?_, ?_, ?_⟩
  · exact C7_add_task_argument_checks.1 ["a"] "t" none none (by decide)
      (by decide)
  · exact C7_add_task_argument_checks.2.1 ["a"] "t" (some "a") (some "a")
      (by decide) (by decide)
  · exact C7_add_task_argument_checks.2.2.1 ["a", "c"] "t" "a" 0 (by decide)
      (by decide)
  · exact C7_add_task_argument_checks.2.2.2.1 ["a"] "t" "zz" (by decide)
      (by decide)
  · exact C7_add_task_argument_checks.2.2.2.2.1 ["a", "c"] "t" "c" 1
      (by decide) (by decide)
  · exact C7_add_task_argument_checks.2.2.2.2.2 ["a"] "t" "zz" (by decide)
      (by decide)

/-! ## Claims C9 and C10: indentation normalization -/

/-- Counterexample for C9 as stated: the spec example input does not
normalize to `"line1\nline2"`. -/
theorem C9_counterexample :
    normalize_indent "\n    line1\n    line2\n" ≠ "line1\nline2" := by
  decide

/-- C9 (amended): the example input normalizes to `"line1\nline2\n"` -- the
final empty line produced by the trailing newline does not start with the
stored four-space indent, so it is appended unchanged and the join keeps a
trailing newline. -/
theorem C9_indentation_normalization_example :
    normalize_indent "\n    line1\n    line2\n" = "line1\nline2\n" := by
  decide

/-- Auxiliary: a list with an empty `takeWhile` run is untouched by
`dropWhile`. -/
theorem dropWhile_eq_self_of_takeWhile_nil {p : Char → Bool} :
    ∀ {l : List Char}, l.takeWhile p = [] → l.dropWhile p = l
  | [], _ => rfl
  | c :: l, h => by
    by_cases hp : p c
    · simp [List.takeWhile_cons, hp] at h
    · simp [List.dropWhile_cons, hp]

/-- Auxiliary: once content has been seen, if no remaining line has leading
whitespace (after right-stripping) and no indent is stored, every line is
emitted right-stripped and no indent is ever stored. -/
theorem normalizeLoop_content_no_indent :
    ∀ lines : List (List Char),
      (∀ l ∈ lines, leadingWS (rstripChars l) = []) →
      normalizeLoop lines none true = lines.map rstripChars
  | [], _ => rfl
  | line :: rest, h => by
    have h0 : leadingWS (rstripChars line) = [] := h line (by simp)
    have hl : lstripChars (rstripChars line) = rstripChars line :=
      dropWhile_eq_self_of_takeWhile_nil h0
    have ih := normalizeLoop_content_no_indent rest
      (fun x hx => h x (by simp [hx]))
    simp [normalizeLoop, hl, ih]

/-- Auxiliary: the full loop under the same no-leading-whitespace hypothesis:
leading blank lines are dropped, everything else is right-stripped only. -/
theorem normalizeLoop_no_indent :
    ∀ lines : List (List Char),
      (∀ l ∈ lines, leadingWS (rstripChars l) = []) →
      normalizeLoop lines none false =
        (lines.dropWhile (fun l => l.all pyIsSpace)).map rstripChars
  | [], _ => rfl
  | line :: rest, h => by
    by_cases hb : line.all pyIsSpace
    · have ih := normalizeLoop_no_indent rest (fun x hx => h x (by simp [hx]))
      simp [normalizeLoop, hb, ih, List.dropWhile_cons]
    · have h0 : leadingWS (rstripChars line) = [] := h line (by simp)
      have hl : lstripChars (rstripChars line) = rstripChars line :=
        dropWhile_eq_self_of_takeWhile_nil h0
      have ih := normalizeLoop_content_no_indent rest
        (fun x hx => h x (by simp [hx]))
      simp [normalizeLoop, hb, hl, ih, List.dropWhile_cons]

/-- C10 (amended): when NO line of the input carries leading whitespace (in
particular the first non-blank one), no indentation prefix is ever
established and every line after the dropped leading blank lines is emitted
with only its trailing whitespace stripped.  (As stated, the claim is false:
while no prefix is stored yet, the loop left-strips every processed line and
adopts the first nonempty leading-whitespace run it meets, even on a line
after the first non-blank one -- see the counterexample.) -/
theorem C10_no_indent_when_unindented (s : String)
    (h : ∀ l ∈ splitOnChar '\n' s.data, leadingWS (rstripChars l) = []) :
    normalize_indent s =
      String.mk (joinLines
        (((splitOnChar '\n' s.data).dropWhile (fun l => l.all pyIsSpace)).map
          rstripChars)) := by
  unfold normalize_indent
  rw [normalizeLoop_no_indent _ h]

/-- Witness for C10 (amended): an unindented two-line input is only
right-stripped. -/
theorem C10_witness : normalize_indent "ab \ncd" = "ab\ncd" :=
  (C10_no_indent_when_unindented "ab \ncd" (by decide)).trans (by decide)

/-- Counterexample for C10 as stated: in `"a\n    b"` the first non-blank
line `"a"` has no leading whitespace, yet the second line does not pass
through unchanged -- its four-space indentation is stripped. -/
theorem C10_counterexample :
    (splitOnChar '\n' ("a\n    b" : String).data).dropWhile
        (fun l => l.all pyIsSpace) = [['a'], [' ', ' ', ' ', ' ', 'b']]
    ∧ normalize_indent "a\n    b" = "a\nb"
    ∧ normalize_indent "a\n    b" ≠ "a\n    b" := by decide

/-! ## Claim C2: idempotence of the derivation step -/

/-- Auxiliary: each derivation step leaves every field it does not assign
unchanged (one `simp` lemma per step and untouched field). -/

@[simp] theorem step_alias_website (c : InstallConfig) :
    (step_alias c).website = c.website := by
  simp only [step_alias]
  split_ifs <;> rfl

@[simp] theorem step_alias_package (c : InstallConfig) :
    (step_alias c).package = c.package := by
  simp only [step_alias]
  split_ifs <;> rfl

@[simp] theorem step_alias_flat_website_name (c : InstallConfig) :
    (step_alias c).flat_website_name = c.flat_website_name := by
  simp only [step_alias]
  split_ifs <;> rfl

@[simp] theorem step_alias_flat_website_alias (c : InstallConfig) :
    (step_alias c).flat_website_alias = c.flat_website_alias := by
  simp only [step_alias]
  split_ifs <;> rfl

@[simp] theorem step_alias_namespace_packages (c : InstallConfig) :
    (step_alias c).namespace_packages = c.namespace_packages := by
  simp only [step_alias]
  split_ifs <;> rfl

@[simp] theorem step_alias_namespace_package_list (c : InstallConfig) :
    (step_alias c).namespace_package_list = c.namespace_package_list := by
  simp only [step_alias]
  split_ifs <;> rfl

@[simp] theorem step_alias_vhost_name (c : InstallConfig) :
    (step_alias c).vhost_name = c.vhost_name := by
  simp only [step_alias]
  split_ifs <;> rfl

@[simp] theorem step_alias_vhost_macro_name (c : InstallConfig) :
    (step_alias c).vhost_macro_name = c.vhost_macro_name := by
  simp only [step_alias]
  split_ifs <;> rfl

@[simp] theorem step_alias_empty_project_folders (c : InstallConfig) :
    (step_alias c).empty_project_folders = c.empty_project_folders := by
  simp only [step_alias]
  split_ifs <;> rfl

@[simp] theorem step_alias_zeo_service_name (c : InstallConfig) :
    (step_alias c).zeo_service_name = c.zeo_service_name := by
  simp only [step_alias]
  split_ifs <;> rfl

@[simp] theorem step_alias_deployment_scheme (c : InstallConfig) :
    (step_alias c).deployment_scheme = c.deployment_scheme := by
  simp only [step_alias]
  split_ifs <;> rfl

@[simp] theorem step_alias_zodb_deployment_scheme (c : InstallConfig) :
    (step_alias c).zodb_deployment_scheme = c.zodb_deployment_scheme := by
  simp only [step_alias]
  split_ifs <;> rfl

@[simp] theorem step_alias_cache_enabled (c : InstallConfig) :
    (step_alias c).cache_enabled = c.cache_enabled := by
  simp only [step_alias]
  split_ifs <;> rfl

@[simp] theorem step_alias_terminal_profile (c : InstallConfig) :
    (step_alias c).terminal_profile = c.terminal_profile := by
  simp only [step_alias]
  split_ifs <;> rfl

@[simp] theorem step_alias_launcher_tabs (c : InstallConfig) :
    (step_alias c).launcher_tabs = c.launcher_tabs := by
  simp only [step_alias]
  split_ifs <;> rfl

@[simp] theorem step_alias_launcher_terminal_tab_parameters (c : InstallConfig) :
    (step_alias c).launcher_terminal_tab_parameters = c.launcher_terminal_tab_parameters := by
  simp only [step_alias]
  split_ifs <;> rfl

@[simp] theorem step_flat_names_website (c : InstallConfig) :
    (step_flat_names c).website = c.website := rfl

@[simp] theorem step_flat_names_alias (c : InstallConfig) :
    (step_flat_names c).«alias» = c.«alias» := rfl

@[simp] theorem step_flat_names_package (c : InstallConfig) :
    (step_flat_names c).package = c.package := rfl

@[simp] theorem step_flat_names_namespace_packages (c : InstallConfig) :
    (step_flat_names c).namespace_packages = c.namespace_packages := rfl

@[simp] theorem step_flat_names_namespace_package_list (c : InstallConfig) :
    (step_flat_names c).namespace_package_list = c.namespace_package_list := rfl

@[simp] theorem step_flat_names_vhost_name (c : InstallConfig) :
    (step_flat_names c).vhost_name = c.vhost_name := rfl

@[simp] theorem step_flat_names_vhost_macro_name (c : InstallConfig) :
    (step_flat_names c).vhost_macro_name = c.vhost_macro_name := rfl

@[simp] theorem step_flat_names_empty_project_folders (c : InstallConfig) :
    (step_flat_names c).empty_project_folders = c.empty_project_folders := rfl

@[simp] theorem step_flat_names_zeo_service_name (c : InstallConfig) :
    (step_flat_names c).zeo_service_name = c.zeo_service_name := rfl

@[simp] theorem step_flat_names_deployment_scheme (c : InstallConfig) :
    (step_flat_names c).deployment_scheme = c.deployment_scheme := rfl

@[simp] theorem step_flat_names_zodb_deployment_scheme (c : InstallConfig) :
    (step_flat_names c).zodb_deployment_scheme = c.zodb_deployment_scheme := rfl

@[simp] theorem step_flat_names_cache_enabled (c : InstallConfig) :
    (step_flat_names c).cache_enabled = c.cache_enabled := rfl

@[simp] theorem step_flat_names_terminal_profile (c : InstallConfig) :
    (step_flat_names c).terminal_profile = c.terminal_profile := rfl

@[simp] theorem step_flat_names_launcher_tabs (c : InstallConfig) :
    (step_flat_names c).launcher_tabs = c.launcher_tabs := rfl

@[simp] theorem step_flat_names_launcher_terminal_tab_parameters (c : InstallConfig) :
    (step_flat_names c).launcher_terminal_tab_parameters = c.launcher_terminal_tab_parameters := rfl

@[simp] theorem step_package_website (c : InstallConfig) :
    (step_package c).website = c.website := by
  simp only [step_package]
  split_ifs <;> rfl

@[simp] theorem step_package_alias (c : InstallConfig) :
    (step_package c).«alias» = c.«alias» := by
  simp only [step_package]
  split_ifs <;> rfl

@[simp] theorem step_package_flat_website_name (c : InstallConfig) :
    (step_package c).flat_website_name = c.flat_website_name := by
  simp only [step_package]
  split_ifs <;> rfl

@[simp] theorem step_package_flat_website_alias (c : InstallConfig) :
    (step_package c).flat_website_alias = c.flat_website_alias := by
  simp only [step_package]
  split_ifs <;> rfl

@[simp] theorem step_package_namespace_packages (c : InstallConfig) :
    (step_package c).namespace_packages = c.namespace_packages := by
  simp only [step_package]
  split_ifs <;> rfl

@[simp] theorem step_package_namespace_package_list (c : InstallConfig) :
    (step_package c).namespace_package_list = c.namespace_package_list := by
  simp only [step_package]
  split_ifs <;> rfl

@[simp] theorem step_package_vhost_name (c : InstallConfig) :
    (step_package c).vhost_name = c.vhost_name := by
  simp only [step_package]
  split_ifs <;> rfl

@[simp] theorem step_package_vhost_macro_name (c : InstallConfig) :
    (step_package c).vhost_macro_name = c.vhost_macro_name := by
  simp only [step_package]
  split_ifs <;> rfl

@[simp] theorem step_package_empty_project_folders (c : InstallConfig) :
    (step_package c).empty_project_folders = c.empty_project_folders := by
  simp only [step_package]
  split_ifs <;> rfl

@[simp] theorem step_package_zeo_service_name (c : InstallConfig) :
    (step_package c).zeo_service_name = c.zeo_service_name := by
  simp only [step_package]
  split_ifs <;> rfl

@[simp] theorem step_package_deployment_scheme (c : InstallConfig) :
    (step_package c).deployment_scheme = c.deployment_scheme := by
  simp only [step_package]
  split_ifs <;> rfl

@[simp] theorem step_package_zodb_deployment_scheme (c : InstallConfig) :
    (step_package c).zodb_deployment_scheme = c.zodb_deployment_scheme := by
  simp only [step_package]
  split_ifs <;> rfl

@[simp] theorem step_package_cache_enabled (c : InstallConfig) :
    (step_package c).cache_enabled = c.cache_enabled := by
  simp only [step_package]
  split_ifs <;> rfl

@[simp] theorem step_package_terminal_profile (c : InstallConfig) :
    (step_package c).terminal_profile = c.terminal_profile := by
  simp only [step_package]
  split_ifs <;> rfl

@[simp] theorem step_package_launcher_tabs (c : InstallConfig) :
    (step_package c).launcher_tabs = c.launcher_tabs := by
  simp only [step_package]
  split_ifs <;> rfl

@[simp] theorem step_package_launcher_terminal_tab_parameters (c : InstallConfig) :
    (step_package c).launcher_terminal_tab_parameters = c.launcher_terminal_tab_parameters := by
  simp only [step_package]
  split_ifs <;> rfl

@[simp] theorem step_namespace_packages_website (c : InstallConfig) :
    (step_namespace_packages c).website = c.website := rfl

@[simp] theorem step_namespace_packages_alias (c : InstallConfig) :
    (step_namespace_packages c).«alias» = c.«alias» := rfl

@[simp] theorem step_namespace_packages_package (c : InstallConfig) :
    (step_namespace_packages c).package = c.package := rfl

@[simp] theorem step_namespace_packages_flat_website_name (c : InstallConfig) :
    (step_namespace_packages c).flat_website_name = c.flat_website_name := rfl

@[simp] theorem step_namespace_packages_flat_website_alias (c : InstallConfig) :
    (step_namespace_packages c).flat_website_alias = c.flat_website_alias := rfl

@[simp] theorem step_namespace_packages_vhost_name (c : InstallConfig) :
    (step_namespace_packages c).vhost_name = c.vhost_name := rfl

@[simp] theorem step_namespace_packages_vhost_macro_name (c : InstallConfig) :
    (step_namespace_packages c).vhost_macro_name = c.vhost_macro_name := rfl

@[simp] theorem step_namespace_packages_empty_project_folders (c : InstallConfig) :
    (step_namespace_packages c).empty_project_folders = c.empty_project_folders := rfl

@[simp] theorem step_namespace_packages_zeo_service_name (c : InstallConfig) :
    (step_namespace_packages c).zeo_service_name = c.zeo_service_name := rfl

@[simp] theorem step_namespace_packages_deployment_scheme (c : InstallConfig) :
    (step_namespace_packages c).deployment_scheme = c.deployment_scheme := rfl

@[simp] theorem step_namespace_packages_zodb_deployment_scheme (c : InstallConfig) :
    (step_namespace_packages c).zodb_deployment_scheme = c.zodb_deployment_scheme := rfl

@[simp] theorem step_namespace_packages_cache_enabled (c : InstallConfig) :
    (step_namespace_packages c).cache_enabled = c.cache_enabled := rfl

@[simp] theorem step_namespace_packages_terminal_profile (c : InstallConfig) :
    (step_namespace_packages c).terminal_profile = c.terminal_profile := rfl

@[simp] theorem step_namespace_packages_launcher_tabs (c : InstallConfig) :
    (step_namespace_packages c).launcher_tabs = c.launcher_tabs := rfl

@[simp] theorem step_namespace_packages_launcher_terminal_tab_parameters (c : InstallConfig) :
    (step_namespace_packages c).launcher_terminal_tab_parameters = c.launcher_terminal_tab_parameters := rfl

@[simp] theorem step_vhost_name_website (c : InstallConfig) :
    (step_vhost_name c).website = c.website := by
  simp only [step_vhost_name]
  split_ifs <;> rfl

@[simp] theorem step_vhost_name_alias (c : InstallConfig) :
    (step_vhost_name c).«alias» = c.«alias» := by
  simp only [step_vhost_name]
  split_ifs <;> rfl

@[simp] theorem step_vhost_name_package (c : InstallConfig) :
    (step_vhost_name c).package = c.package := by
  simp only [step_vhost_name]
  split_ifs <;> rfl

@[simp] theorem step_vhost_name_flat_website_name (c : InstallConfig) :
    (step_vhost_name c).flat_website_name = c.flat_website_name := by
  simp only [step_vhost_name]
  split_ifs <;> rfl

@[simp] theorem step_vhost_name_flat_website_alias (c : InstallConfig) :
    (step_vhost_name c).flat_website_alias = c.flat_website_alias := by
  simp only [step_vhost_name]
  split_ifs <;> rfl

@[simp] theorem step_vhost_name_namespace_packages (c : InstallConfig) :
    (step_vhost_name c).namespace_packages = c.namespace_packages := by
  simp only [step_vhost_name]
  split_ifs <;> rfl

@[simp] theorem step_vhost_name_namespace_package_list (c : InstallConfig) :
    (step_vhost_name c).namespace_package_list = c.namespace_package_list := by
  simp only [step_vhost_name]
  split_ifs <;> rfl

@[simp] theorem step_vhost_name_vhost_macro_name (c : InstallConfig) :
    (step_vhost_name c).vhost_macro_name = c.vhost_macro_name := by
  simp only [step_vhost_name]
  split_ifs <;> rfl

@[simp] theorem step_vhost_name_empty_project_folders (c : InstallConfig) :
    (step_vhost_name c).empty_project_folders = c.empty_project_folders := by
  simp only [step_vhost_name]
  split_ifs <;> rfl

@[simp] theorem step_vhost_name_zeo_service_name (c : InstallConfig) :
    (step_vhost_name c).zeo_service_name = c.zeo_service_name := by
  simp only [step_vhost_name]
  split_ifs <;> rfl

@[simp] theorem step_vhost_name_deployment_scheme (c : InstallConfig) :
    (step_vhost_name c).deployment_scheme = c.deployment_scheme := by
  simp only [step_vhost_name]
  split_ifs <;> rfl

@[simp] theorem step_vhost_name_zodb_deployment_scheme (c : InstallConfig) :
    (step_vhost_name c).zodb_deployment_scheme = c.zodb_deployment_scheme := by
  simp only [step_vhost_name]
  split_ifs <;> rfl

@[simp] theorem step_vhost_name_cache_enabled (c : InstallConfig) :
    (step_vhost_name c).cache_enabled = c.cache_enabled := by
  simp only [step_vhost_name]
  split_ifs <;> rfl

@[simp] theorem step_vhost_name_terminal_profile (c : InstallConfig) :
    (step_vhost_name c).terminal_profile = c.terminal_profile := by
  simp only [step_vhost_name]
  split_ifs <;> rfl

@[simp] theorem step_vhost_name_launcher_tabs (c : InstallConfig) :
    (step_vhost_name c).launcher_tabs = c.launcher_tabs := by
  simp only [step_vhost_name]
  split_ifs <;> rfl

@[simp] theorem step_vhost_name_launcher_terminal_tab_parameters (c : InstallConfig) :
    (step_vhost_name c).launcher_terminal_tab_parameters = c.launcher_terminal_tab_parameters := by
  simp only [step_vhost_name]
  split_ifs <;> rfl

@[simp] theorem step_vhost_macro_name_website (c : InstallConfig) :
    (step_vhost_macro_name c).website = c.website := by
  simp only [step_vhost_macro_name]
  split_ifs <;> rfl

@[simp] theorem step_vhost_macro_name_alias (c : InstallConfig) :
    (step_vhost_macro_name c).«alias» = c.«alias» := by
  simp only [step_vhost_macro_name]
  split_ifs <;> rfl

@[simp] theorem step_vhost_macro_name_package (c : InstallConfig) :
    (step_vhost_macro_name c).package = c.package := by
  simp only [step_vhost_macro_name]
  split_ifs <;> rfl

@[simp] theorem step_vhost_macro_name_flat_website_name (c : InstallConfig) :
    (step_vhost_macro_name c).flat_website_name = c.flat_website_name := by
  simp only [step_vhost_macro_name]
  split_ifs <;> rfl

@[simp] theorem step_vhost_macro_name_flat_website_alias (c : InstallConfig) :
    (step_vhost_macro_name c).flat_website_alias = c.flat_website_alias := by
  simp only [step_vhost_macro_name]
  split_ifs <;> rfl

@[simp] theorem step_vhost_macro_name_namespace_packages (c : InstallConfig) :
    (step_vhost_macro_name c).namespace_packages = c.namespace_packages := by
  simp only [step_vhost_macro_name]
  split_ifs <;> rfl

@[simp] theorem step_vhost_macro_name_namespace_package_list (c : InstallConfig) :
    (step_vhost_macro_name c).namespace_package_list = c.namespace_package_list := by
  simp only [step_vhost_macro_name]
  split_ifs <;> rfl

@[simp] theorem step_vhost_macro_name_vhost_name (c : InstallConfig) :
    (step_vhost_macro_name c).vhost_name = c.vhost_name := by
  simp only [step_vhost_macro_name]
  split_ifs <;> rfl

@[simp] theorem step_vhost_macro_name_empty_project_folders (c : InstallConfig) :
    (step_vhost_macro_name c).empty_project_folders = c.empty_project_folders := by
  simp only [step_vhost_macro_name]
  split_ifs <;> rfl

@[simp] theorem step_vhost_macro_name_zeo_service_name (c : InstallConfig) :
    (step_vhost_macro_name c).zeo_service_name = c.zeo_service_name := by
  simp only [step_vhost_macro_name]
  split_ifs <;> rfl

@[simp] theorem step_vhost_macro_name_deployment_scheme (c : InstallConfig) :
    (step_vhost_macro_name c).deployment_scheme = c.deployment_scheme := by
  simp only [step_vhost_macro_name]
  split_ifs <;> rfl

@[simp] theorem step_vhost_macro_name_zodb_deployment_scheme (c : InstallConfig) :
    (step_vhost_macro_name c).zodb_deployment_scheme = c.zodb_deployment_scheme := by
  simp only [step_vhost_macro_name]
  split_ifs <;> rfl

@[simp] theorem step_vhost_macro_name_cache_enabled (c : InstallConfig) :
    (step_vhost_macro_name c).cache_enabled = c.cache_enabled := by
  simp only [step_vhost_macro_name]
  split_ifs <;> rfl

@[simp] theorem step_vhost_macro_name_terminal_profile (c : InstallConfig) :
    (step_vhost_macro_name c).terminal_profile = c.terminal_profile := by
  simp only [step_vhost_macro_name]
  split_ifs <;> rfl

@[simp] theorem step_vhost_macro_name_launcher_tabs (c : InstallConfig) :
    (step_vhost_macro_name c).launcher_tabs = c.launcher_tabs := by
  simp only [step_vhost_macro_name]
  split_ifs <;> rfl

@[simp] theorem step_vhost_macro_name_launcher_terminal_tab_parameters (c : InstallConfig) :
    (step_vhost_macro_name c).launcher_terminal_tab_parameters = c.launcher_terminal_tab_parameters := by
  simp only [step_vhost_macro_name]
  split_ifs <;> rfl

@[simp] theorem step_empty_project_folders_website (c : InstallConfig) :
    (step_empty_project_folders c).website = c.website := rfl

@[simp] theorem step_empty_project_folders_alias (c : InstallConfig) :
    (step_empty_project_folders c).«alias» = c.«alias» := rfl

@[simp] theorem step_empty_project_folders_package (c : InstallConfig) :
    (step_empty_project_folders c).package = c.package := rfl

@[simp] theorem step_empty_project_folders_flat_website_name (c : InstallConfig) :
    (step_empty_project_folders c).flat_website_name = c.flat_website_name := rfl

@[simp] theorem step_empty_project_folders_flat_website_alias (c : InstallConfig) :
    (step_empty_project_folders c).flat_website_alias = c.flat_website_alias := rfl

@[simp] theorem step_empty_project_folders_namespace_packages (c : InstallConfig) :
    (step_empty_project_folders c).namespace_packages = c.namespace_packages := rfl

@[simp] theorem step_empty_project_folders_namespace_package_list (c : InstallConfig) :
    (step_empty_project_folders c).namespace_package_list = c.namespace_package_list := rfl

@[simp] theorem step_empty_project_folders_vhost_name (c : InstallConfig) :
    (step_empty_project_folders c).vhost_name = c.vhost_name := rfl

@[simp] theorem step_empty_project_folders_vhost_macro_name (c : InstallConfig) :
    (step_empty_project_folders c).vhost_macro_name = c.vhost_macro_name := rfl

@[simp] theorem step_empty_project_folders_zeo_service_name (c : InstallConfig) :
    (step_empty_project_folders c).zeo_service_name = c.zeo_service_name := rfl

@[simp] theorem step_empty_project_folders_deployment_scheme (c : InstallConfig) :
    (step_empty_project_folders c).deployment_scheme = c.deployment_scheme := rfl

@[simp] theorem step_empty_project_folders_zodb_deployment_scheme (c : InstallConfig) :
    (step_empty_project_folders c).zodb_deployment_scheme = c.zodb_deployment_scheme := rfl

@[simp] theorem step_empty_project_folders_cache_enabled (c : InstallConfig) :
    (step_empty_project_folders c).cache_enabled = c.cache_enabled := rfl

@[simp] theorem step_empty_project_folders_terminal_profile (c : InstallConfig) :
    (step_empty_project_folders c).terminal_profile = c.terminal_profile := rfl

@[simp] theorem step_empty_project_folders_launcher_tabs (c : InstallConfig) :
    (step_empty_project_folders c).launcher_tabs = c.launcher_tabs := rfl

@[simp] theorem step_empty_project_folders_launcher_terminal_tab_parameters (c : InstallConfig) :
    (step_empty_project_folders c).launcher_terminal_tab_parameters = c.launcher_terminal_tab_parameters := rfl

@[simp] theorem step_zeo_service_name_website (c : InstallConfig) :
    (step_zeo_service_name c).website = c.website := rfl

@[simp] theorem step_zeo_service_name_alias (c : InstallConfig) :
    (step_zeo_service_name c).«alias» = c.«alias» := rfl

@[simp] theorem step_zeo_service_name_package (c : InstallConfig) :
    (step_zeo_service_name c).package = c.package := rfl

@[simp] theorem step_zeo_service_name_flat_website_name (c : InstallConfig) :
    (step_zeo_service_name c).flat_website_name = c.flat_website_name := rfl

@[simp] theorem step_zeo_service_name_flat_website_alias (c : InstallConfig) :
    (step_zeo_service_name c).flat_website_alias = c.flat_website_alias := rfl

@[simp] theorem step_zeo_service_name_namespace_packages (c : InstallConfig) :
    (step_zeo_service_name c).namespace_packages = c.namespace_packages := rfl

@[simp] theorem step_zeo_service_name_namespace_package_list (c : InstallConfig) :
    (step_zeo_service_name c).namespace_package_list = c.namespace_package_list := rfl

@[simp] theorem step_zeo_service_name_vhost_name (c : InstallConfig) :
    (step_zeo_service_name c).vhost_name = c.vhost_name := rfl

@[simp] theorem step_zeo_service_name_vhost_macro_name (c : InstallConfig) :
    (step_zeo_service_name c).vhost_macro_name = c.vhost_macro_name := rfl

@[simp] theorem step_zeo_service_name_empty_project_folders (c : InstallConfig) :
    (step_zeo_service_name c).empty_project_folders = c.empty_project_folders := rfl

@[simp] theorem step_zeo_service_name_deployment_scheme (c : InstallConfig) :
    (step_zeo_service_name c).deployment_scheme = c.deployment_scheme := rfl

@[simp] theorem step_zeo_service_name_zodb_deployment_scheme (c : InstallConfig) :
    (step_zeo_service_name c).zodb_deployment_scheme = c.zodb_deployment_scheme := rfl

@[simp] theorem step_zeo_service_name_cache_enabled (c : InstallConfig) :
    (step_zeo_service_name c).cache_enabled = c.cache_enabled := rfl

@[simp] theorem step_zeo_service_name_terminal_profile (c : InstallConfig) :
    (step_zeo_service_name c).terminal_profile = c.terminal_profile := rfl

@[simp] theorem step_zeo_service_name_launcher_tabs (c : InstallConfig) :
    (step_zeo_service_name c).launcher_tabs = c.launcher_tabs := rfl

@[simp] theorem step_zeo_service_name_launcher_terminal_tab_parameters (c : InstallConfig) :
    (step_zeo_service_name c).launcher_terminal_tab_parameters = c.launcher_terminal_tab_parameters := rfl

@[simp] theorem step_terminal_profile_website (c : InstallConfig) :
    (step_terminal_profile c).website = c.website := by
  simp only [step_terminal_profile]
  split_ifs <;> rfl

@[simp] theorem step_terminal_profile_alias (c : InstallConfig) :
    (step_terminal_profile c).«alias» = c.«alias» := by
  simp only [step_terminal_profile]
  split_ifs <;> rfl

@[simp] theorem step_terminal_profile_package (c : InstallConfig) :
    (step_terminal_profile c).package = c.package := by
  simp only [step_terminal_profile]
  split_ifs <;> rfl

@[simp] theorem step_terminal_profile_flat_website_name (c : InstallConfig) :
    (step_terminal_profile c).flat_website_name = c.flat_website_name := by
  simp only [step_terminal_profile]
  split_ifs <;> rfl

@[simp] theorem step_terminal_profile_flat_website_alias (c : InstallConfig) :
    (step_terminal_profile c).flat_website_alias = c.flat_website_alias := by
  simp only [step_terminal_profile]
  split_ifs <;> rfl

@[simp] theorem step_terminal_profile_namespace_packages (c : InstallConfig) :
    (step_terminal_profile c).namespace_packages = c.namespace_packages := by
  simp only [step_terminal_profile]
  split_ifs <;> rfl

@[simp] theorem step_terminal_profile_namespace_package_list (c : InstallConfig) :
    (step_terminal_profile c).namespace_package_list = c.namespace_package_list := by
  simp only [step_terminal_profile]
  split_ifs <;> rfl

@[simp] theorem step_terminal_profile_vhost_name (c : InstallConfig) :
    (step_terminal_profile c).vhost_name = c.vhost_name := by
  simp only [step_terminal_profile]
  split_ifs <;> rfl

@[simp] theorem step_terminal_profile_vhost_macro_name (c : InstallConfig) :
    (step_terminal_profile c).vhost_macro_name = c.vhost_macro_name := by
  simp only [step_terminal_profile]
  split_ifs <;> rfl

@[simp] theorem step_terminal_profile_empty_project_folders (c : InstallConfig) :
    (step_terminal_profile c).empty_project_folders = c.empty_project_folders := by
  simp only [step_terminal_profile]
  split_ifs <;> rfl

@[simp] theorem step_terminal_profile_zeo_service_name (c : InstallConfig) :
    (step_terminal_profile c).zeo_service_name = c.zeo_service_name := by
  simp only [step_terminal_profile]
  split_ifs <;> rfl

@[simp] theorem step_terminal_profile_deployment_scheme (c : InstallConfig) :
    (step_terminal_profile c).deployment_scheme = c.deployment_scheme := by
  simp only [step_terminal_profile]
  split_ifs <;> rfl

@[simp] theorem step_terminal_profile_zodb_deployment_scheme (c : InstallConfig) :
    (step_terminal_profile c).zodb_deployment_scheme = c.zodb_deployment_scheme := by
  simp only [step_terminal_profile]
  split_ifs <;> rfl

@[simp] theorem step_terminal_profile_cache_enabled (c : InstallConfig) :
    (step_terminal_profile c).cache_enabled = c.cache_enabled := by
  simp only [step_terminal_profile]
  split_ifs <;> rfl

@[simp] theorem step_terminal_profile_launcher_tabs (c : InstallConfig) :
    (step_terminal_profile c).launcher_tabs = c.launcher_tabs := by
  simp only [step_terminal_profile]
  split_ifs <;> rfl

@[simp] theorem step_terminal_profile_launcher_terminal_tab_parameters (c : InstallConfig) :
    (step_terminal_profile c).launcher_terminal_tab_parameters = c.launcher_terminal_tab_parameters := by
  simp only [step_terminal_profile]
  split_ifs <;> rfl

/-- Auxiliary: the value each derivation step assigns to its field. -/
@[simp] theorem step_alias_value (c : InstallConfig) :
    (step_alias c).«alias» =
      if !pyTruthy c.«alias» then some c.website else c.«alias» := by
  simp only [step_alias]
  split_ifs <;> rfl

@[simp] theorem step_flat_names_name_value (c : InstallConfig) :
    (step_flat_names c).flat_website_name =
      some (replaceDots (pyLower c.website)) := rfl

@[simp] theorem step_flat_names_alias_value (c : InstallConfig) :
    (step_flat_names c).flat_website_alias =
      some (replaceDots (pyLower (c.«alias».getD ""))) := rfl

@[simp] theorem step_package_value (c : InstallConfig) :
    (step_package c).package =
      if !pyTruthy c.package then some (pyLower c.website) else c.package := by
  simp only [step_package]
  split_ifs <;> rfl

@[simp] theorem step_namespace_packages_value (c : InstallConfig) :
    (step_namespace_packages c).namespace_packages =
      (splitDots (c.package.getD "")).dropLast := rfl

@[simp] theorem step_namespace_packages_list_value (c : InstallConfig) :
    (step_namespace_packages c).namespace_package_list =
      (List.range ((splitDots (c.package.getD "")).dropLast).length).map
        (fun i => String.intercalate "."
          (((splitDots (c.package.getD "")).dropLast).take (i + 1))) := rfl

@[simp] theorem step_vhost_name_value (c : InstallConfig) :
    (step_vhost_name c).vhost_name =
      if !pyTruthy c.vhost_name then c.flat_website_alias else c.vhost_name
    := by
  simp only [step_vhost_name]
  split_ifs <;> rfl

@[simp] theorem step_vhost_macro_name_value (c : InstallConfig) :
    (step_vhost_macro_name c).vhost_macro_name =
      if !pyTruthy c.vhost_macro_name then
        some ((c.vhost_name.getD "") ++ "_vhost")
      else c.vhost_macro_name := by
  simp only [step_vhost_macro_name]
  split_ifs <;> rfl

@[simp] theorem step_empty_project_folders_value (c : InstallConfig) :
    (step_empty_project_folders c).empty_project_folders =
      c.empty_project_folders ++ [["static", "resources"]] := rfl

@[simp] theorem step_zeo_service_name_value (c : InstallConfig) :
    (step_zeo_service_name c).zeo_service_name =
      some ((c.«alias».getD "") ++ "-zeo") := rfl

@[simp] theorem step_terminal_profile_value (c : InstallConfig) :
    (step_terminal_profile c).terminal_profile =
      if !pyTruthy c.terminal_profile then c.«alias» else c.terminal_profile
    := by
  simp only [step_terminal_profile]
  split_ifs <;> rfl

/-- Auxiliary: the field relations one run of the assignment slice
establishes. -/
theorem icf_alias (c : InstallConfig) :
    pyTruthy (init_config_fields c).«alias» = false →
    (init_config_fields c).«alias» = some (init_config_fields c).website := by
  simp only [init_config_fields]
  simp
  cases hb : pyTruthy c.«alias» <;> simp [hb]

theorem icf_flat_website_name (c : InstallConfig) :
    (init_config_fields c).flat_website_name =
      some (replaceDots (pyLower (init_config_fields c).website)) := by
  simp only [init_config_fields]
  simp

theorem icf_flat_website_alias (c : InstallConfig) :
    (init_config_fields c).flat_website_alias =
      some (replaceDots (pyLower ((init_config_fields c).«alias».getD "")))
    := by
  simp only [init_config_fields]
  simp

theorem icf_package (c : InstallConfig) :
    pyTruthy (init_config_fields c).package = false →
    (init_config_fields c).package =
      some (pyLower (init_config_fields c).website) := by
  simp only [init_config_fields]
  simp
  cases hb : pyTruthy c.package <;> simp [hb]

theorem icf_namespace_packages (c : InstallConfig) :
    (init_config_fields c).namespace_packages =
      (splitDots ((init_config_fields c).package.getD "")).dropLast := by
  simp only [init_config_fields]
  simp

theorem icf_namespace_package_list (c : InstallConfig) :
    (init_config_fields c).namespace_package_list =
      (List.range
          ((splitDots
            ((init_config_fields c).package.getD "")).dropLast).length).map
        (fun i => String.intercalate "."
          (((splitDots ((init_config_fields c).package.getD "")).dropLast).take
            (i + 1))) := by
  simp only [init_config_fields]
  simp

theorem icf_vhost_name (c : InstallConfig) :
    pyTruthy (init_config_fields c).vhost_name = false →
    (init_config_fields c).vhost_name =
      (init_config_fields c).flat_website_alias := by
  simp only [init_config_fields]
  simp
  cases hb : pyTruthy c.vhost_name <;> simp [hb]

theorem icf_vhost_macro_name (c : InstallConfig) :
    pyTruthy (init_config_fields c).vhost_macro_name = false →
    (init_config_fields c).vhost_macro_name =
      some (((init_config_fields c).vhost_name.getD "") ++ "_vhost") := by
  simp only [init_config_fields]
  simp
  cases hb : pyTruthy c.vhost_macro_name <;> simp [hb]

theorem icf_zeo_service_name (c : InstallConfig) :
    (init_config_fields c).zeo_service_name =
      some (((init_config_fields c).«alias».getD "") ++ "-zeo") := by
  simp only [init_config_fields]
  simp

theorem icf_terminal_profile (c : InstallConfig) :
    pyTruthy (init_config_fields c).terminal_profile = false →
    (init_config_fields c).terminal_profile =
      (init_config_fields c).«alias» := by
  simp only [init_config_fields]
  simp
  cases hb : pyTruthy c.terminal_profile <;> simp [hb]

/-- Auxiliary: every item the launcher-tab re-filter outputs is a
`(key, cmd)` pair. -/
theorem filter_launcher_tabs_pairs (c : InstallConfig) :
    ∀ (l tabs : List PyTab), filter_launcher_tabs c l = .ok tabs →
      ∀ x ∈ tabs, ∃ k v, x = PyTab.pair k v
  | [], tabs, h => by
    simp only [filter_launcher_tabs, Except.ok.injEq] at h
    subst h
    simp
  | .triple key cmd condition :: rest, tabs, h => by
    rcases hr : filter_launcher_tabs c rest with e | t
    · simp only [filter_launcher_tabs, hr, Except.map] at h
      exact Except.noConfusion h
    · have ih := filter_launcher_tabs_pairs c rest t hr
      simp only [filter_launcher_tabs, hr, Except.map, Except.ok.injEq] at h
      subst h
      intro x hx
      by_cases hcond : evalTabCondition c condition
      · simp only [hcond, if_true, List.mem_cons] at hx
        rcases hx with hx | hx
        · exact ⟨key, cmd, hx⟩
        · exact ih x hx
      · simp only [hcond, Bool.false_eq_true, if_false] at hx
        exact ih x hx
  | .pair _ _ :: rest, tabs, h => by
    simp only [filter_launcher_tabs] at h
    exact Except.noConfusion h

/-- Auxiliary: the field-assignment slice is stable on any namespace whose
fields already satisfy the relations a first run establishes, except for
appending one more `["static", "resources"]` entry (line 2520). -/
theorem init_config_fields_stable (d : InstallConfig)
    (hal : pyTruthy d.«alias» = false → d.«alias» = some d.website)
    (hfn : d.flat_website_name = some (replaceDots (pyLower d.website)))
    (hfa : d.flat_website_alias =
      some (replaceDots (pyLower (d.«alias».getD ""))))
    (hpk : pyTruthy d.package = false → d.package = some (pyLower d.website))
    (hnsp : d.namespace_packages =
      (splitDots (d.package.getD "")).dropLast)
    (hnspl : d.namespace_package_list =
      (List.range ((splitDots (d.package.getD "")).dropLast).length).map
        (fun i => String.intercalate "."
          (((splitDots (d.package.getD "")).dropLast).take (i + 1))))
    (hvn : pyTruthy d.vhost_name = false →
      d.vhost_name = d.flat_website_alias)
    (hvm : pyTruthy d.vhost_macro_name = false →
      d.vhost_macro_name = some (((d.vhost_name).getD "") ++ "_vhost"))
    (hzeo : d.zeo_service_name = some (((d.«alias»).getD "") ++ "-zeo"))
    (htp : pyTruthy d.terminal_profile = false →
      d.terminal_profile = d.«alias») :
    init_config_fields d =
      { d with empty_project_folders := d.empty_project_folders ++ [["static", "resources"]] } := by
  have e1 : step_alias d = d := by
    cases hb : pyTruthy d.«alias» with
    | false =>
      have hcond : (!pyTruthy d.«alias») = true := by rw [hb]; rfl
      show (if (!pyTruthy d.«alias») = true then { d with «alias» := some d.website } else d) = d
      rw [if_pos hcond]
      apply InstallConfig.ext <;> simp [hal hb]
    | true =>
      have hneg : ¬((!pyTruthy d.«alias») = true) := by rw [hb]; simp
      show (if (!pyTruthy d.«alias») = true then { d with «alias» := some d.website } else d) = d
      rw [if_neg hneg]
  have e2 : step_flat_names d = d := by
    show { d with
      flat_website_name := some (replaceDots (pyLower d.website)),
      flat_website_alias := some (replaceDots (pyLower (d.«alias».getD ""))) } = d
    apply InstallConfig.ext <;> simp [hfn, hfa]
  have e3 : step_package d = d := by
    cases hb : pyTruthy d.package with
    | false =>
      have hcond : (!pyTruthy d.package) = true := by rw [hb]; rfl
      show (if (!pyTruthy d.package) = true then { d with package := some (pyLower d.website) } else d) = d
      rw [if_pos hcond]
      apply InstallConfig.ext <;> simp [hpk hb]
    | true =>
      have hneg : ¬((!pyTruthy d.package) = true) := by rw [hb]; simp
      show (if (!pyTruthy d.package) = true then { d with package := some (pyLower d.website) } else d) = d
      rw [if_neg hneg]
  have e4 : step_namespace_packages d = d := by
    show { d with
      namespace_packages := (splitDots (d.package.getD "")).dropLast,
      namespace_package_list := (List.range ((splitDots (d.package.getD "")).dropLast).length).map (fun i => String.intercalate "." (((splitDots (d.package.getD "")).dropLast).take (i + 1))) } = d
    apply InstallConfig.ext <;> simp [hnsp, hnspl]
  have e5 : step_vhost_name d = d := by
    cases hb : pyTruthy d.vhost_name with
    | false =>
      have hcond : (!pyTruthy d.vhost_name) = true := by rw [hb]; rfl
      show (if (!pyTruthy d.vhost_name) = true then { d with vhost_name := d.flat_website_alias } else d) = d
      rw [if_pos hcond]
      apply InstallConfig.ext <;> simp [hvn hb]
    | true =>
      have hneg : ¬((!pyTruthy d.vhost_name) = true) := by rw [hb]; simp
      show (if (!pyTruthy d.vhost_name) = true then { d with vhost_name := d.flat_website_alias } else d) = d
      rw [if_neg hneg]
  have e6 : step_vhost_macro_name d = d := by
    cases hb : pyTruthy d.vhost_macro_name with
    | false =>
      have hcond : (!pyTruthy d.vhost_macro_name) = true := by rw [hb]; rfl
      show (if (!pyTruthy d.vhost_macro_name) = true then { d with vhost_macro_name := some ((d.vhost_name.getD "") ++ "_vhost") } else d) = d
      rw [if_pos hcond]
      apply InstallConfig.ext <;> simp [hvm hb]
    | true =>
      have hneg : ¬((!pyTruthy d.vhost_macro_name) = true) := by
        rw [hb]; simp
      show (if (!pyTruthy d.vhost_macro_name) = true then { d with vhost_macro_name := some ((d.vhost_name.getD "") ++ "_vhost") } else d) = d
      rw [if_neg hneg]
  have e8 : ∀ x : InstallConfig, x.«alias» = d.«alias» →
      x.zeo_service_name = d.zeo_service_name →
      step_zeo_service_name x = x := by
    intro x h1 h2
    show { x with zeo_service_name := some ((x.«alias».getD "") ++ "-zeo") } = x
    apply InstallConfig.ext <;> simp [h1, h2, hzeo]
  have e9 : ∀ x : InstallConfig, x.«alias» = d.«alias» →
      x.terminal_profile = d.terminal_profile →
      step_terminal_profile x = x := by
    intro x h1 h2
    cases hb : pyTruthy x.terminal_profile with
    | false =>
      have hd2 : pyTruthy d.terminal_profile = false := by rw [← h2]; exact hb
      have hcond : (!pyTruthy x.terminal_profile) = true := by rw [hb]; rfl
      show (if (!pyTruthy x.terminal_profile) = true then { x with terminal_profile := x.«alias» } else x) = x
      rw [if_pos hcond]
      apply InstallConfig.ext <;> simp [h1, h2, htp hd2]
    | true =>
      have hneg : ¬((!pyTruthy x.terminal_profile) = true) := by
        rw [hb]; simp
      show (if (!pyTruthy x.terminal_profile) = true then { x with terminal_profile := x.«alias» } else x) = x
      rw [if_neg hneg]
  show step_terminal_profile (step_zeo_service_name
    (step_empty_project_folders (step_vhost_macro_name (step_vhost_name
      (step_namespace_packages (step_package (step_flat_names
        (step_alias d)))))))) = _
  rw [e1, e2, e3, e4, e5, e6,
    show step_empty_project_folders d = { d with empty_project_folders := d.empty_project_folders ++ [["static", "resources"]] } from rfl,
    e8 { d with empty_project_folders := d.empty_project_folders ++ [["static", "resources"]] } rfl rfl,
    e9 { d with empty_project_folders := d.empty_project_folders ++ [["static", "resources"]] } rfl rfl]

/-- Counterexample for C2 as stated: on a fresh configuration with the class
defaults, running the derivation twice does not reproduce one run -- the
second run raises `ValueError` unpacking the `(key, cmd)` pairs that the
first run left in `launcher_tabs` (lines 2686-2690); and on the fields
alone, the unconditional `empty_project_folders.append` of line 2520 fires
again. -/
theorem C2_counterexample :
    (init_config exampleConfig).bind init_config ≠ init_config exampleConfig
    ∧ (init_config exampleConfig).bind init_config =
        .error "ValueError: not enough values to unpack (expected 3, got 2)"
    := by decide

/-- C2 (amended): derivation is not idempotent, in two ways.  Given any
namespace `d` produced by a run of the derivation slice: when any launcher
tab survived the re-filter (`launcher_tabs` nonempty, now `(key, cmd)`
pairs), a second run raises the `ValueError` of unpacking a pair into three
names (lines 2686-2690); when none survived, the second run reproduces `d`
exactly except for appending one more `["static", "resources"]` entry to
`empty_project_folders` (line 2520) -- guarded fields are never overwritten
and the unconditional assignments recompute equal values. -/
theorem C2_derivation_not_idempotent (c d : InstallConfig)
    (hcd : init_config c = .ok d) :
    init_config d =
      if d.launcher_tabs = [] then
        .ok { d with empty_project_folders := d.empty_project_folders ++ [["static", "resources"]] }
      else
        .error "ValueError: not enough values to unpack (expected 3, got 2)"
    := by
  simp only [init_config] at hcd
  rcases hfil : filter_launcher_tabs (init_config_fields c)
      (init_config_fields c).launcher_tabs with e | tabs
  · simp only [hfil] at hcd
    exact Except.noConfusion hcd
  · simp only [hfil] at hcd
    rcases hcmd : launcher_tab_commands
        ((init_config_fields c).terminal_profile.getD "") tabs with e | items
    · simp only [hcmd] at hcd
      exact Except.noConfusion hcd
    · simp only [hcmd] at hcd
      injection hcd with hd
      have hstable : init_config_fields d =
          { d with empty_project_folders := d.empty_project_folders ++ [["static", "resources"]] } := by
        refine init_config_fields_stable d ?_ ?_ ?_ ?_ ?_ ?_ ?_ ?_ ?_ ?_
        · rw [← hd]; exact icf_alias c
        · rw [← hd]; exact icf_flat_website_name c
        · rw [← hd]; exact icf_flat_website_alias c
        · rw [← hd]; exact icf_package c
        · rw [← hd]; exact icf_namespace_packages c
        · rw [← hd]; exact icf_namespace_package_list c
        · rw [← hd]; exact icf_vhost_name c
        · rw [← hd]; exact icf_vhost_macro_name c
        · rw [← hd]; exact icf_zeo_service_name c
        · rw [← hd]; exact icf_terminal_profile c
      have htabs2 : d.launcher_tabs = tabs := by rw [← hd]
      have hparams2 : d.launcher_terminal_tab_parameters =
          some (String.intercalate "\\\n\t" items) := by rw [← hd]
      by_cases htabs : tabs = []
      · have hitems : items = [] := by
          subst htabs
          have h0 : Except.ok ([] : List String) = Except.ok items := hcmd
          injection h0 with h0
          exact h0.symm
        subst hitems
        subst htabs
        rw [if_pos htabs2]
        simp only [init_config, hstable, htabs2, filter_launcher_tabs,
          launcher_tab_commands]
        refine congrArg Except.ok ?_
        apply InstallConfig.ext <;> simp [htabs2, hparams2]
      · obtain ⟨t0, tr, rfl⟩ : ∃ t0 tr, tabs = t0 :: tr := by
          cases tabs with
          | nil => exact absurd rfl htabs
          | cons a l => exact ⟨a, l, rfl⟩
        obtain ⟨k, v, rfl⟩ :=
          filter_launcher_tabs_pairs _ _ _ hfil t0 (by simp)
        rw [if_neg (by rw [htabs2]; simp)]
        simp only [init_config, hstable, htabs2, filter_launcher_tabs]

/-- Witness for C2 (amended): a seed with no launcher tabs derives once,
and a second run succeeds with exactly one more folders entry. -/
theorem C2_witness :
    init_config exampleDerivedConfig =
      if exampleDerivedConfig.launcher_tabs = [] then
        .ok { exampleDerivedConfig with empty_project_folders :=
            exampleDerivedConfig.empty_project_folders
              ++ [["static", "resources"]] }
      else
        .error "ValueError: not enough values to unpack (expected 3, got 2)"
    :=
  C2_derivation_not_idempotent exampleSeedConfig exampleDerivedConfig
    (by decide)

/-! ## Claim C3: update_features calls update() once per feature -/

/-- C3 evaluated at its failing input: with the registry of
`Installer.__init__` and the required features of a plain `cherrypy` run
(`get_required_features` always yields `"core3"`), `update_features` invokes
`core3.update()` twice -- once in the default pass and again in the
required pass, because `feature_id not in updated_features` (line 2725)
compares the id string against a set of `Feature` objects and is never
true. -/
theorem C3_update_features_double_update :
    update_features installer_features
        (get_required_features "cherrypy" false [] "no" false) =
      .ok ["core3", "pdfrenderer", "core3"]
    ∧ List.count "core3" ["core3", "pdfrenderer", "core3"] = 2 := by
  decide

/-! ## Claim C6: template token expansion -/

/-- Auxiliary: a run of key characters followed by a dash: the maximal
key-character run is the whole run, whatever follows the dash. -/
theorem takeWhile_key_dash (key : List Char)
    (h : ∀ c ∈ key, isVarKeyChar c = true) (r : List Char) :
    (key ++ '-' :: r).takeWhile isVarKeyChar = key := by
  induction key with
  | nil => simp [List.takeWhile_cons, show isVarKeyChar '-' = false by decide]
  | cons c l ih =>
    have hc : isVarKeyChar c = true := h c (by simp)
    have ih2 := ih (fun x hx => h x (by simp [hx]))
    simp [List.takeWhile_cons, hc, ih2]

/-- Auxiliary: a list is a `isPrefixOf` of itself followed by anything. -/
theorem isPrefixOf_append_self : ∀ (l r : List Char),
    l.isPrefixOf (l ++ r) = true
  | [], _ => by simp [List.isPrefixOf]
  | c :: l, r => by
    simp [List.isPrefixOf, isPrefixOf_append_self l r]

/-- Auxiliary: the step counter is irrelevant as long as it is at least the
length of the remaining text (each scan step consumes at least one
character). -/
theorem expandVarsFuel_congr (ns : List (String × PyValue)) :
    ∀ k (cs : List Char), cs.length ≤ k → ∀ n m, cs.length ≤ n →
      cs.length ≤ m → expandVarsFuel ns n cs = expandVarsFuel ns m cs := by
  intro k
  induction k with
  | zero =>
    intro cs hk n m hn hm
    have hnil : cs = [] := List.eq_nil_of_length_eq_zero (Nat.le_zero.mp hk)
    subst hnil
    cases n <;> cases m <;> rfl
  | succ k ih =>
    intro cs hk n m hn hm
    cases cs with
    | nil => cases n <;> cases m <;> rfl
    | cons c rest =>
      have hlc : (c :: rest).length = rest.length + 1 := rfl
      obtain ⟨n2, rfl⟩ : ∃ n2, n = n2 + 1 := ⟨n - 1, by omega⟩
      obtain ⟨m2, rfl⟩ : ∃ m2, m = m2 + 1 := ⟨m - 1, by omega⟩
      simp only [expandVarsFuel]
      split_ifs with h1 h2
      · have hrec := ih (List.drop 2
            (List.drop (List.takeWhile isVarKeyChar
              (List.drop markerChars.length (c :: rest))).length
              (List.drop markerChars.length (c :: rest))))
          (by simp only [List.length_drop, List.length_cons] at hk hn hm ⊢
              omega)
          n2 m2
          (by simp only [List.length_drop, List.length_cons] at hk hn hm ⊢
              omega)
          (by simp only [List.length_drop, List.length_cons] at hk hn hm ⊢
              omega)
        rw [hrec]
      · have hrec := ih rest
          (by simp only [List.length_cons] at hk hn hm ⊢; omega)
          n2 m2
          (by simp only [List.length_cons] at hk hn hm ⊢; omega)
          (by simp only [List.length_cons] at hk hn hm ⊢; omega)
        rw [hrec]
      · have hrec := ih rest
          (by simp only [List.length_cons] at hk hn hm ⊢; omega)
          n2 m2
          (by simp only [List.length_cons] at hk hn hm ⊢; omega)
          (by simp only [List.length_cons] at hk hn hm ⊢; omega)
        rw [hrec]

/-- C6 (amended): the scan equations of template expansion, for arbitrary
templates.  (1) Wherever a token `--SETUP-KEY--` begins, it is replaced by
`str(getattr(self, key.lower()))` when the namespace has an attribute of the
lower-cased name -- including an attribute whose value is `None`, which
substitutes the text `None` rather than failing -- and expansion fails with
the `Undefined variable` error naming the literal token exactly when no such
attribute exists, whatever text follows the token.  (2) Any position at
which no token begins passes its character through unchanged.  (3) The empty
template expands to itself.  (4) `expand_vars` is this scan on the
template's characters. -/
theorem C6_template_expansion (ns : List (String × PyValue)) :
    (∀ key tail, key ≠ [] → (∀ c ∈ key, isVarKeyChar c = true) →
      expandVarsAux ns (markerChars ++ key ++ '-' :: '-' :: tail) =
        (match pygetattr ns (String.mk (key.map Char.toLower)) with
         | some v =>
           (expandVarsAux ns tail).map (fun t => (pyStrOf v).data ++ t)
         | none =>
           .error ("Undefined variable: --SETUP-" ++ String.mk key ++ "--")))
    ∧ (∀ c rest, tokenAtHead (c :: rest) = false →
        expandVarsAux ns (c :: rest) =
          (expandVarsAux ns rest).map (fun t => c :: t))
    ∧ expandVarsAux ns [] = .ok []
    ∧ (∀ s, expand_vars ns s = (expandVarsAux ns s.data).map String.mk) := by
  refine ⟨?_, ?_, rfl, fun s => rfl⟩
  · intro key tail hne hkey
    have hmarker : markerChars.isPrefixOf
        (markerChars ++ (key ++ '-' :: '-' :: tail)) = true :=
      isPrefixOf_append_self markerChars _
    have hdrop : (markerChars ++
        (key ++ '-' :: '-' :: tail)).drop markerChars.length =
        key ++ '-' :: '-' :: tail := List.drop_left _ _
    have htake : (key ++ '-' :: '-' :: tail).takeWhile isVarKeyChar =
        key := takeWhile_key_dash key hkey ('-' :: tail)
    have hdrop2 : (key ++ '-' :: '-' :: tail).drop key.length =
        '-' :: '-' :: tail := List.drop_left _ _
    have hempty : key.isEmpty = false := by
      cases key with
      | nil => exact absurd rfl hne
      | cons c l => rfl
    have hpre2 : ((['-', '-'] : List Char)).isPrefixOf
        ('-' :: '-' :: tail) = true := by
      simp [List.isPrefixOf]
    have hlen : (markerChars ++
        (key ++ '-' :: '-' :: tail)).length =
        (key.length + tail.length + 9) + 1 := by
      simp [markerChars]
      omega
    show expandVarsFuel ns
        (markerChars ++ key ++ '-' :: '-' :: tail).length
        (markerChars ++ key ++ '-' :: '-' :: tail) = _
    rw [List.append_assoc, hlen]
    rw [show markerChars ++ (key ++ '-' :: '-' :: tail) =
      '-' :: ('-' :: 'S' :: 'E' :: 'T' :: 'U' :: 'P' :: '-' ::
        (key ++ '-' :: '-' :: tail)) from rfl]
    rw [expandVarsFuel]
    rw [show ('-' :: ('-' :: 'S' :: 'E' :: 'T' :: 'U' :: 'P' :: '-' ::
        (key ++ '-' :: '-' :: tail))) =
      markerChars ++ (key ++ '-' :: '-' :: tail) from rfl]
    simp only [hmarker, if_true, hdrop, htake, hdrop2, hempty, hpre2,
      Bool.not_false, Bool.and_true, if_true]
    rw [show ('-' :: '-' :: tail).drop 2 = tail from rfl]
    rw [expandVarsFuel_congr ns tail.length tail le_rfl
      (key.length + tail.length + 9) tail.length (by omega) le_rfl]
    simp only [expandVarsAux]
  · intro c rest h
    show expandVarsFuel ns (rest.length + 1) (c :: rest) =
      (expandVarsFuel ns rest.length rest).map (fun t => c :: t)
    simp only [expandVarsFuel]
    split_ifs with h1 h2
    · exfalso
      have htrue : tokenAtHead (c :: rest) = true := by
        simp only [tokenAtHead, h1, h2, Bool.true_and]
      exact Bool.noConfusion (htrue.symm.trans h)
    · rfl
    · rfl

/-- Witness for C6 (amended): a defined integer attribute is substituted in
a token embedded before further text. -/
theorem C6_witness :
    expandVarsAux [("port", PyValue.vInt 14001)]
        (markerChars ++ ['P', 'O', 'R', 'T'] ++ '-' :: '-' :: [' ', 'x'])
      = .ok ['1', '4', '0', '0', '1', ' ', 'x'] :=
  ((C6_template_expansion [("port", PyValue.vInt 14001)]).1
    ['P', 'O', 'R', 'T'] [' ', 'x'] (by decide) (by decide)).trans
    (by decide)

/-- Counterexample for C6 as stated: the namespace field `root_dir` exists
and is `None` (class default, line 914), and expansion of
`--SETUP-ROOT_DIR--` does NOT fail -- it substitutes the text `None`. -/
theorem C6_counterexample :
    pygetattr [("root_dir", PyValue.vNone)] "root_dir" = some PyValue.vNone
    ∧ expand_vars [("root_dir", PyValue.vNone)] "--SETUP-ROOT_DIR--" =
        .ok "None" := by decide

/-! ## Base64 lemmas and claim C8 -/

/-- Auxiliary: encoding and decoding at the character level are inverse for
6-bit values. -/
theorem b64CharVal_b64Char : ∀ n < 64, b64CharVal (b64Char n) = n := by
  decide

/-- Auxiliary: no alphabet character (nor the out-of-range default) is the
padding character. -/
theorem b64Char_ne_pad (n : Nat) : b64Char n ≠ '=' := by
  by_cases h : n < 64
  · revert n
    decide
  · unfold b64Char
    rw [List.getD_eq_default]
    · decide
    · have hlen : b64Alphabet.length = 64 := by decide
      omega

/-- Auxiliary: base64 decoding inverts base64 encoding on byte lists. -/
theorem b64decode_b64encode : ∀ (data : List Nat), (∀ b ∈ data, b < 256) →
    b64decode (b64encode data) = data
  | [], _ => rfl
  | [a], h => by
    have ha : a < 256 := h a (by simp)
    have h1 : b64CharVal (b64Char (a / 4)) = a / 4 :=
      b64CharVal_b64Char _ (by omega)
    have h2 : b64CharVal (b64Char (a % 4 * 16)) = a % 4 * 16 :=
      b64CharVal_b64Char _ (by omega)
    simp [b64encode, b64decode, h1, h2]
    omega
  | [a, b], h => by
    have ha : a < 256 := h a (by simp)
    have hb : b < 256 := h b (by simp)
    have h1 : b64CharVal (b64Char (a / 4)) = a / 4 :=
      b64CharVal_b64Char _ (by omega)
    have h2 : b64CharVal (b64Char (a % 4 * 16 + b / 16)) =
        a % 4 * 16 + b / 16 := b64CharVal_b64Char _ (by omega)
    have h3 : b64CharVal (b64Char (b % 16 * 4)) = b % 16 * 4 :=
      b64CharVal_b64Char _ (by omega)
    have hne : b64Char (b % 16 * 4) ≠ '=' := b64Char_ne_pad _
    simp [b64encode, b64decode, hne, h1, h2, h3]
    constructor <;> omega
  | a :: b :: c :: rest, h => by
    have ha : a < 256 := h a (by simp)
    have hb : b < 256 := h b (by simp)
    have hc : c < 256 := h c (by simp)
    have h1 : b64CharVal (b64Char (a / 4)) = a / 4 :=
      b64CharVal_b64Char _ (by omega)
    have h2 : b64CharVal (b64Char (a % 4 * 16 + b / 16)) =
        a % 4 * 16 + b / 16 := b64CharVal_b64Char _ (by omega)
    have h3 : b64CharVal (b64Char (b % 16 * 4 + c / 64)) =
        b % 16 * 4 + c / 64 := b64CharVal_b64Char _ (by omega)
    have h4 : b64CharVal (b64Char (c % 64)) = c % 64 :=
      b64CharVal_b64Char _ (by omega)
    have hne3 : b64Char (b % 16 * 4 + c / 64) ≠ '=' := b64Char_ne_pad _
    have hne4 : b64Char (c % 64) ≠ '=' := b64Char_ne_pad _
    have ih := b64decode_b64encode rest (fun x hx => h x (by simp [hx]))
    simp [b64encode, b64decode, hne3, hne4, h1, h2, h3, h4, ih]
    refine ⟨by omega, by omega, by omega⟩

/-- Auxiliary: encoding distributes over an append at a 3-byte boundary. -/
theorem b64encode_append : ∀ (u v : List Nat), u.length % 3 = 0 →
    b64encode (u ++ v) = b64encode u ++ b64encode v
  | [], v, _ => rfl
  | [a], v, h => by
    simp only [List.length_cons, List.length_nil] at h
    omega
  | [a, b], v, h => by
    simp only [List.length_cons, List.length_nil] at h
    omega
  | a :: b :: c :: rest, v, h => by
    have ih := b64encode_append rest v (by
      simp only [List.length_cons] at h
      omega)
    simp [b64encode, ih]

/-- Auxiliary: encoded output length is a multiple of four. -/
theorem b64encode_length_mod : ∀ (data : List Nat),
    (b64encode data).length % 4 = 0
  | [] => rfl
  | [a] => by simp [b64encode]
  | [a, b] => by simp [b64encode]
  | a :: b :: c :: rest => by
    have ih := b64encode_length_mod rest
    simp [b64encode]
    omega

/-- Auxiliary: the encoding of a whole number of 3-byte groups contains no
padding character. -/
theorem pad_not_mem_b64encode : ∀ (data : List Nat), data.length % 3 = 0 →
    '=' ∉ b64encode data
  | [], _ => by simp [b64encode]
  | [a], h => by
    simp only [List.length_cons, List.length_nil] at h
    omega
  | [a, b], h => by
    simp only [List.length_cons, List.length_nil] at h
    omega
  | a :: b :: c :: rest, h => by
    have ih := pad_not_mem_b64encode rest (by
      simp only [List.length_cons] at h
      omega)
    simp only [b64encode, List.mem_cons, not_or]
    refine ⟨?_, ?_, ?_, ?_, ih⟩ <;>
      exact fun hh => b64Char_ne_pad _ hh.symm

/-- Auxiliary: the encoding of a final short group (at most two bytes) is at
most four characters and a whole number of 4-character groups. -/
theorem b64encode_short : ∀ (rem : List Nat), rem.length ≤ 2 →
    (b64encode rem).length ≤ 4 ∧ (b64encode rem).length % 4 = 0
  | [], _ => by simp [b64encode]
  | [a], _ => by simp [b64encode]
  | [a, b], _ => by simp [b64encode]
  | a :: b :: c :: rest, h => by
    simp only [List.length_cons] at h
    omega

/-- Auxiliary: decoding distributes over an append at a 4-character boundary
when the first part is padding-free. -/
theorem b64decode_append : ∀ (u v : List Char), u.length % 4 = 0 →
    '=' ∉ u → b64decode (u ++ v) = b64decode u ++ b64decode v
  | [], v, _, _ => rfl
  | [c1], v, h, _ => by
    simp only [List.length_cons, List.length_nil] at h
    omega
  | [c1, c2], v, h, _ => by
    simp only [List.length_cons, List.length_nil] at h
    omega
  | [c1, c2, c3], v, h, _ => by
    simp only [List.length_cons, List.length_nil] at h
    omega
  | c1 :: c2 :: c3 :: c4 :: rest, v, h, hpad => by
    have hc3 : c3 ≠ '=' := fun hh => hpad (by simp [hh])
    have hc4 : c4 ≠ '=' := fun hh => hpad (by simp [hh])
    have ih := b64decode_append rest v (by
        simp only [List.length_cons] at h
        omega)
      (fun hh => hpad (by simp [hh]))
    simp [b64decode, hc3, hc4, ih]

/-- Auxiliary: the encoding loop at a chunk size that is a positive multiple
of three produces exactly the base64 encoding of the whole stream. -/
theorem chunkedEncode_eq (e : Nat) (he3 : e % 3 = 0) (he0 : e ≠ 0) :
    ∀ (data : List Nat), chunkedEncode e data = b64encode data := by
  suffices key : ∀ (n : Nat) (data : List Nat), data.length = n →
      chunkedEncode e data = b64encode data by
    intro data
    exact key data.length data rfl
  intro n
  induction n using Nat.strong_induction_on with
  | _ n ih =>
    intro data hn
    rw [chunkedEncode]
    by_cases hnil : data = []
    · rw [if_pos (Or.inr hnil), hnil]
      rfl
    · rw [if_neg (by simp [he0, hnil])]
      by_cases hle : data.length ≤ e
      · rw [List.take_of_length_le hle, List.drop_eq_nil_of_le hle,
          chunkedEncode]
        simp
      · push_neg at hle
        have hdrop := ih (data.drop e).length
          (by simp only [List.length_drop]; omega) (data.drop e) rfl
        rw [hdrop]
        have htake : (data.take e).length % 3 = 0 := by
          simp only [List.length_take]
          omega
        conv_rhs => rw [← List.take_append_drop e data]
        rw [b64encode_append _ _ htake]

/-- Auxiliary: the decoding loop at a chunk size that is a positive multiple
of four, on a stream that is a padding-free 4-aligned part followed by at
most one final group, produces exactly the base64 decoding of the whole
stream. -/
theorem chunkedDecode_eq (d : Nat) (hd4 : d % 4 = 0) (hd0 : d ≠ 0) :
    ∀ (u t : List Char), u.length % 4 = 0 → '=' ∉ u → t.length ≤ 4 →
      t.length % 4 = 0 →
      chunkedDecode d (u ++ t) = b64decode (u ++ t) := by
  suffices key : ∀ (n : Nat) (u t : List Char), u.length = n →
      u.length % 4 = 0 → '=' ∉ u → t.length ≤ 4 → t.length % 4 = 0 →
      chunkedDecode d (u ++ t) = b64decode (u ++ t) by
    intro u t
    exact key u.length u t rfl
  intro n
  induction n using Nat.strong_induction_on with
  | _ n ih =>
    intro u t hn hu4 hpad ht4 htm
    rw [chunkedDecode]
    by_cases hnil : u ++ t = []
    · rw [if_pos (Or.inr hnil), hnil]
      rfl
    · rw [if_neg (by simp [hd0, hnil])]
      by_cases hle : (u ++ t).length ≤ d
      · rw [List.take_of_length_le hle, List.drop_eq_nil_of_le hle,
          chunkedDecode]
        simp
      · push_neg at hle
        have hdu : d ≤ u.length := by
          by_contra hcon
          push_neg at hcon
          simp only [List.length_append] at hle
          omega
        have h1 : (u ++ t).take d = u.take d := by
          rw [List.take_append_eq_append_take,
            Nat.sub_eq_zero_of_le hdu]
          simp
        have h2 : (u ++ t).drop d = u.drop d ++ t := by
          rw [List.drop_append_eq_append_drop,
            Nat.sub_eq_zero_of_le hdu]
          simp
        rw [h1, h2]
        have hpadtake : '=' ∉ u.take d :=
          fun hh => hpad (List.take_subset _ _ hh)
        have hpaddrop : '=' ∉ u.drop d :=
          fun hh => hpad (List.drop_subset _ _ hh)
        have ihh := ih (u.drop d).length
          (by simp only [List.length_drop]; omega) (u.drop d) t rfl
          (by simp only [List.length_drop]; omega) hpaddrop ht4 htm
        rw [ihh]
        have htake4 : (u.take d).length % 4 = 0 := by
          simp only [List.length_take]
          omega
        rw [← b64decode_append _ _ htake4 hpadtake, ← List.append_assoc,
          List.take_append_drop]

/-- C8 (chunked base64 round-trip): the bundler's encoding chunk size 8190
is a multiple of 3 and the unbundler's decoding chunk size 10920 is a
multiple of 4; and for every byte sequence, encoding it in chunks of any
positive multiple of 3 (the final chunk may be short), concatenating, and
decoding the concatenation in chunks of any positive multiple of 4
reproduces the original bytes exactly. -/
theorem C8_chunked_base64_roundtrip :
    bundle_chunk_size % 3 = 0 ∧ unbundle_chunk_size % 4 = 0 ∧
    ∀ (e d : Nat) (data : List Nat), e % 3 = 0 → e ≠ 0 → d % 4 = 0 →
      d ≠ 0 → (∀ b ∈ data, b < 256) →
      chunkedDecode d (chunkedEncode e data) = data := by
  refine ⟨by decide, by decide, ?_⟩
  intro e d data he3 he0 hd4 hd0 hdata
  rw [chunkedEncode_eq e he3 he0 data]
  have hkle : 3 * (data.length / 3) ≤ data.length := by omega
  have htake3 : (data.take (3 * (data.length / 3))).length % 3 = 0 := by
    simp only [List.length_take]
    omega
  have hsplit : b64encode data =
      b64encode (data.take (3 * (data.length / 3)))
        ++ b64encode (data.drop (3 * (data.length / 3))) := by
    conv_lhs => rw [← List.take_append_drop (3 * (data.length / 3)) data]
    exact b64encode_append _ _ htake3
  have hrem : (data.drop (3 * (data.length / 3))).length ≤ 2 := by
    simp only [List.length_drop]
    omega
  obtain ⟨hlen_le, hlen_mod⟩ := b64encode_short _ hrem
  rw [hsplit]
  rw [chunkedDecode_eq d hd4 hd0 _ _ (b64encode_length_mod _)
    (pad_not_mem_b64encode _ htake3) hlen_le hlen_mod]
  rw [← hsplit]
  exact b64decode_b64encode data hdata

/-- Witness for C8: a four-byte stream through 3-byte encoding chunks and
4-character decoding chunks. -/
theorem C8_witness :
    chunkedDecode 4 (chunkedEncode 3 [200, 7, 13, 255]) =
      [200, 7, 13, 255] :=
  C8_chunked_base64_roundtrip.2.2 3 4 [200, 7, 13, 255] (by decide)
    (by decide) (by decide) (by decide) (by decide)

end Woost

